import Mathlib

/-!
# hlDX::DeviceResources — device creation, recreation and presentation

A shallow embedding of `App1/Content/Common/hlDeviceResources.cpp`.

The class is stateful and talks to the operating system (DXGI, Direct3D 11,
the holographic space, the registered `IDeviceNotify`).  The embedding is a
state-passing one:

* `DeviceResources` holds the member variables the source reads and writes;
* `Platform W` is the outside world: every external call of the source is a
  function from the world state `W` to a result and a new world state, so the
  theorems hold for every behaviour of the drivers and of the compositor;
* `Exec W α` is a computation over both that may end by a thrown exception; its
  `Outcome` holds the member variables and the world at the point of return or
  of throw, and the list of the external calls it made, in order (`Event`).

Calls that return an `HRESULT` do not throw.  `CreateDirect3DDevice` and
`SetDirect3D11Device` return or throw.  The callbacks of the registered
`IDeviceNotify` run code of the application, which holds a pointer to the object:
a callback returns or throws, and it leaves the member variables as the member
functions it called on the object left them.
-/

namespace hlDX

/-! ## Values -/

/-- A Windows `HRESULT`: a signed 32-bit status code. -/
abbrev HRESULT := Int

/-- The `FAILED(hr)` test of `winerror.h`: the sign bit is set. -/
def FAILED (hr : HRESULT) : Bool := decide (hr < 0)

/-- The `HRESULT` carried by `Platform::NullReferenceException` (`E_POINTER`, 0x80004003). -/
def E_POINTER : HRESULT := -2147467261

/-- The identity of a COM object.  `ComPtr<T>` is `Option ComObject`, `nullptr` being `none`;
two interface pointers obtained from one object by `QueryInterface` have the same identity. -/
abbrev ComObject := Nat

/-- The identity of a WinRT `IDirect3DDevice^` built by `CreateDirect3DDevice`. -/
abbrev InteropDevice := Nat

/-- The identity of a `HolographicSpace^`. -/
abbrev HolographicSpace := Nat

/-- The identity of a `HolographicFrame^`. -/
abbrev HolographicFrame := Nat

/-- The identity of an `hlDX::IDeviceNotify*`. -/
abbrev DeviceNotify := Nat

/-- The two-part adapter identifier (`LUID`, and `HolographicAdapterId`): an unsigned low part and
a signed high part. -/
structure LUID where
  LowPart : Nat
  HighPart : Int
deriving DecidableEq, Repr

/-- The driver types of `d3dcommon.h`. -/
inductive D3D_DRIVER_TYPE
  | UNKNOWN | HARDWARE | REFERENCE | NULL | SOFTWARE | WARP
deriving DecidableEq, Repr

/-- The feature levels named by the source. -/
inductive D3D_FEATURE_LEVEL
  | LEVEL_12_1 | LEVEL_12_0 | LEVEL_11_1 | LEVEL_11_0 | LEVEL_10_1 | LEVEL_10_0
deriving DecidableEq, Repr

/-- The result of `HolographicFrame::PresentUsingCurrentPrediction`. -/
inductive HolographicFramePresentResult
  | Success | DeviceRemoved
deriving DecidableEq, Repr

/-- The interfaces asked for through `ComPtr::As`.  The last three are the interface types of the
members `m_d3dDevice`, `m_d3dContext` and `m_dxgiAdapter`, declared in the header. -/
inductive Interface
  | IDXGIFactory4 | IDXGIDevice3 | D3DDeviceMember | D3DContextMember | DXGIAdapterMember
deriving DecidableEq, Repr

/-- The flag `D3D11_CREATE_DEVICE_BGRA_SUPPORT` of `d3d11.h`. -/
def D3D11_CREATE_DEVICE_BGRA_SUPPORT : Nat := 0x20

/-- The flag `D3D11_CREATE_DEVICE_DEBUG` of `d3d11.h`. -/
def D3D11_CREATE_DEVICE_DEBUG : Nat := 0x2

/-- The flag `DXGI_CREATE_FACTORY_DEBUG` of `dxgi1_3.h`. -/
def DXGI_CREATE_FACTORY_DEBUG : Nat := 0x1

/-- The preprocessor symbols the source tests: `#ifdef DEBUG` in
`InitializeUsingHolographicSpace`, `#if defined(_DEBUG)` in `CreateDeviceResources`. -/
structure BuildConfig where
  DEBUG : Bool
  _DEBUG : Bool
deriving DecidableEq, Repr

/-! ## Member variables -/

/-- The member variables of `hlDX::DeviceResources` that the modelled functions use. -/
structure DeviceResources where
  m_holographicSpace : Option HolographicSpace
  m_dxgiAdapter : Option ComObject
  m_d3dDevice : Option ComObject
  m_d3dContext : Option ComObject
  m_d3dInteropDevice : Option InteropDevice
  m_d3dFeatureLevel : Nat
  m_supportsVprt : Bool
  m_deviceNotify : Option DeviceNotify
deriving DecidableEq, Repr

/-! ## External calls -/

/-- What `D3D11CreateDevice` writes through its three out-parameters.  `featureLevel` is `none`
when the call leaves `*pFeatureLevel` untouched. -/
structure CreatedDevice where
  device : ComObject
  featureLevel : Option Nat
  context : ComObject
deriving DecidableEq, Repr

/-- One external call made by a member function, with its arguments and its result.
`CreateDirect3DDevice` is a call of that function that returned, `CreateDirect3DDeviceThrew` one
that threw.  `SetDirect3D11Device`, `OnDeviceLost` and `OnDeviceRestored` have no result: the event
records that the call was made, whether it returned or threw.  A callback of the registered
`IDeviceNotify` carries the member variables as they stand when it is made: they are what the
callee can read through the accessors of `DeviceResources`.  Calls that the callee itself makes
are not listed. -/
inductive Event
  | SdkLayersAvailable (result : Bool)
  | CreateDXGIFactory2 (flags : Nat) (hr : HRESULT) (factory : ComObject)
  | QueryInterface (object : ComObject) (iid : Interface) (hr : HRESULT)
  | EnumAdapterByLuid (factory : ComObject) (id : LUID) (hr : HRESULT) (adapter : ComObject)
  | D3D11CreateDevice (adapter : Option ComObject) (driverType : D3D_DRIVER_TYPE) (flags : Nat)
      (featureLevels : List D3D_FEATURE_LEVEL) (hr : HRESULT) (created : CreatedDevice)
  | CreateDirect3DDevice (dxgiDevice : ComObject) (result : InteropDevice)
  | CreateDirect3DDeviceThrew (dxgiDevice : ComObject) (hr : HRESULT)
  | GetAdapter (dxgiDevice : ComObject) (hr : HRESULT) (adapter : ComObject)
  | CheckFeatureSupport (device : ComObject) (hr : HRESULT) (vprt : Bool)
  | SetDirect3D11Device (space : HolographicSpace) (device : Option InteropDevice)
  | PresentUsingCurrentPrediction (frame : HolographicFrame) (result : HolographicFramePresentResult)
  | OnDeviceLost (sink : DeviceNotify) (members : DeviceResources)
  | OnDeviceRestored (sink : DeviceNotify) (members : DeviceResources)
deriving DecidableEq, Repr

/-- The result of an external call that returns an `HRESULT`: the status, the value written to
the out-parameter (meaningful only when the call succeeded), and the world after the call. -/
structure Ret (α : Type) (W : Type) where
  hr : HRESULT
  out : α
  world : W

/-- What a callback of the registered `IDeviceNotify` leaves.  The callee is code of the
application and holds a pointer to the object: it may throw (`thrown` is the `HRESULT` of the
exception), and it may call the public member functions of the object, `RegisterDeviceNotify`
among them, so the member variables after the callback need not be those before it. -/
structure CallbackReturn (W : Type) where
  thrown : Option HRESULT
  members : DeviceResources
  world : W

/-- The outside world, as seen from `hlDeviceResources.cpp`.  `SdkLayersAvailable` is the probe
of `hlDirectXHelper.h`, `QueryInterface` is what `ComPtr::As` calls, `CheckFeatureSupport` returns
the `VPAndRTArrayIndexFromAnyShaderFeedingRasterizer` member of the options buffer as it stands
after the call (the buffer is not initialised by the source, so after a failed call the value is
whatever the buffer holds).  `CreateDirect3DDevice` returns the interop device or throws;
`SetDirect3D11Device` returns or throws (`some hr`).  The property `PrimaryAdapterId` and the
calls `SdkLayersAvailable` and `PresentUsingCurrentPrediction` return a value. -/
structure Platform (W : Type) where
  PrimaryAdapterId : HolographicSpace → W → LUID
  SdkLayersAvailable : W → Bool × W
  CreateDXGIFactory2 : Nat → W → Ret ComObject W
  QueryInterface : ComObject → Interface → W → Ret Unit W
  EnumAdapterByLuid : ComObject → LUID → W → Ret ComObject W
  D3D11CreateDevice : Option ComObject → D3D_DRIVER_TYPE → Nat → List D3D_FEATURE_LEVEL → W →
    Ret CreatedDevice W
  CreateDirect3DDevice : ComObject → W → Except HRESULT InteropDevice × W
  GetAdapter : ComObject → W → Ret ComObject W
  CheckFeatureSupport : ComObject → W → Ret Bool W
  SetDirect3D11Device : HolographicSpace → Option InteropDevice → W → Option HRESULT × W
  PresentUsingCurrentPrediction : HolographicFrame → W → HolographicFramePresentResult × W
  OnDeviceLost : DeviceNotify → DeviceResources → W → CallbackReturn W
  OnDeviceRestored : DeviceNotify → DeviceResources → W → CallbackReturn W

/-! ## Computations -/

/-- The statement of the source that throws, or through which an exception of the callee
passes. -/
inductive Site
  | NullHolographicSpace
  | CreateDXGIFactory2
  | FactoryAs
  | EnumAdapterByLuid
  | D3D11CreateDeviceWarp
  | DeviceAs
  | ContextAs
  | DxgiDeviceAs
  | CreateDirect3DDevice
  | GetAdapter
  | AdapterAs
  | SetDirect3D11Device
  | OnDeviceLost
  | OnDeviceRestored
deriving DecidableEq, Repr

/-- An exception in flight: where it was thrown and the `HRESULT` it carries. -/
structure Thrown where
  site : Site
  hr : HRESULT
deriving DecidableEq, Repr

/-- Equality of results is decidable: two results are equal when both are returned values that
are equal or both are exceptions that are equal. -/
instance {ε α : Type} [DecidableEq ε] [DecidableEq α] : DecidableEq (Except ε α)
  | .ok a, .ok b => if h : a = b then isTrue (congrArg Except.ok h)
      else isFalse (fun h1 => h (Except.ok.inj h1))
  | .error a, .error b => if h : a = b then isTrue (congrArg Except.error h)
      else isFalse (fun h1 => h (Except.error.inj h1))
  | .ok _, .error _ => isFalse (fun h => Except.noConfusion h)
  | .error _, .ok _ => isFalse (fun h => Except.noConfusion h)

/-- What a computation leaves behind: the value returned or the exception thrown, the member
variables and the world as they stand at that point, and the external calls made, in order. -/
structure Outcome (W : Type) (α : Type) where
  result : Except Thrown α
  members : DeviceResources
  world : W
  events : List Event

/-- A computation over the member variables and the world.  When it throws, the member
variables keep the values they had at the throw, as the members of a C++ object do. -/
def Exec (W : Type) (α : Type) : Type := DeviceResources → W → Outcome W α

/-- Run a computation from given member variables and a given world. -/
def Exec.run {W α : Type} (x : Exec W α) (s : DeviceResources) (w : W) : Outcome W α := x s w

/-- Return a value. -/
def Exec.pure {W α : Type} (a : α) : Exec W α := fun s w => ⟨.ok a, s, w, []⟩

/-- Sequence two computations; a throw of the first skips the second. -/
def Exec.bind {W α β : Type} (x : Exec W α) (f : α → Exec W β) : Exec W β := fun s w =>
  match (x s w).result with
  | .ok a =>
    { f a (x s w).members (x s w).world with
      events := (x s w).events ++ (f a (x s w).members (x s w).world).events }
  | .error t => ⟨.error t, (x s w).members, (x s w).world, (x s w).events⟩

instance {W : Type} : Monad (Exec W) where
  pure := Exec.pure
  bind := Exec.bind

/-- Throw. -/
def Exec.throw {W α : Type} (t : Thrown) : Exec W α := fun s w => ⟨.error t, s, w, []⟩

/-- Read the member variables. -/
def Exec.members {W : Type} : Exec W DeviceResources := fun s w => ⟨.ok s, s, w, []⟩

/-- Assign to member variables. -/
def Exec.assign {W : Type} (f : DeviceResources → DeviceResources) : Exec W Unit := fun s w =>
  ⟨.ok (), f s, w, []⟩

/-- Read a property of the outside world. -/
def Exec.read {W α : Type} (f : W → α) : Exec W α := fun s w => ⟨.ok (f w), s, w, []⟩

/-- Make an external call that returns an `HRESULT` and record it. -/
def Exec.call {W α : Type} (f : W → Ret α W) (ev : HRESULT → α → Event) : Exec W (HRESULT × α) :=
  fun s w => ⟨.ok ((f w).hr, (f w).out), s, (f w).world, [ev (f w).hr (f w).out]⟩

/-- Make an external call that returns a plain value and record it. -/
def Exec.invoke {W α : Type} (f : W → α × W) (ev : α → Event) : Exec W α := fun s w =>
  ⟨.ok (f w).1, s, (f w).2, [ev (f w).1]⟩

/-- Make an external call that returns a value or throws, and record it. -/
def Exec.attempt {W α : Type} (f : W → Except HRESULT α × W) (site : Site) (ev : α → Event)
    (threw : HRESULT → Event) : Exec W α := fun s w =>
  match (f w).1 with
  | .ok a => ⟨.ok a, s, (f w).2, [ev a]⟩
  | .error hr => ⟨.error ⟨site, hr⟩, s, (f w).2, [threw hr]⟩

/-- Make an external call that returns nothing or throws, and record it. -/
def Exec.notify {W : Type} (f : W → Option HRESULT × W) (site : Site) (ev : Event) :
    Exec W Unit := fun s w =>
  match (f w).1 with
  | none => ⟨.ok (), s, (f w).2, [ev]⟩
  | some hr => ⟨.error ⟨site, hr⟩, s, (f w).2, [ev]⟩

/-- Call back into the application and record it: the callee is given the member variables, and
the run goes on, or the exception propagates, from the member variables the callee left. -/
def Exec.callback {W : Type} (f : DeviceResources → W → CallbackReturn W) (site : Site)
    (ev : DeviceResources → Event) : Exec W Unit := fun s w =>
  match (f s w).thrown with
  | none => ⟨.ok (), (f s w).members, (f s w).world, [ev s]⟩
  | some hr => ⟨.error ⟨site, hr⟩, (f s w).members, (f s w).world, [ev s]⟩

/-- The helper `hlDX::ThrowIfFailed` of `hlDirectXHelper.h`: throw an exception carrying `hr`
when `FAILED(hr)`.  The call site is recorded with the exception. -/
def ThrowIfFailed {W : Type} (site : Site) (hr : HRESULT) : Exec W Unit :=
  if FAILED hr then Exec.throw ⟨site, hr⟩ else Exec.pure ()

/-- The WRL idiom `source.As(&target)` for a member `target`: taking the address of the target
releases it, `QueryInterface` is called on the source object, and the target then holds the
source object if the call succeeded and `nullptr` if it failed.  The `HRESULT` is returned. -/
def ComPtrAs {W : Type} (P : Platform W) (source : ComObject) (iid : Interface)
    (target : Option ComObject → DeviceResources → DeviceResources) : Exec W HRESULT := do
  Exec.assign (target none)
  let r ← Exec.call (P.QueryInterface source iid) (fun hr _ => Event.QueryInterface source iid hr)
  Exec.assign (target (if FAILED r.1 then none else some source))
  pure r.1

/-- One call of `D3D11CreateDevice` as the source writes it: the device and the context go to
locals, the feature level goes to the member `m_d3dFeatureLevel`. -/
def D3D11CreateDevice {W : Type} (P : Platform W) (adapter : Option ComObject)
    (driverType : D3D_DRIVER_TYPE) (flags : Nat) (levels : List D3D_FEATURE_LEVEL) :
    Exec W (HRESULT × CreatedDevice) := do
  let r ← Exec.call (P.D3D11CreateDevice adapter driverType flags levels)
    (Event.D3D11CreateDevice adapter driverType flags levels)
  Exec.assign (fun s => { s with m_d3dFeatureLevel := r.2.featureLevel.getD s.m_d3dFeatureLevel })
  pure r

/-! ## The member functions -/

/-- The array `featureLevels` of `CreateDeviceResources`. -/
def featureLevels : List D3D_FEATURE_LEVEL :=
  [.LEVEL_12_1, .LEVEL_12_0, .LEVEL_11_1, .LEVEL_11_0, .LEVEL_10_1, .LEVEL_10_0]

/-- The first half of `CreateDeviceResources` (source lines 126 to 188): build the creation
flags, attempt the hardware device on `m_dxgiAdapter`, and on failure attempt the WARP device.
Returns what the successful attempt wrote to the locals `device` and `context`. -/
def CreateDeviceWithFallback {W : Type} (P : Platform W) (cfg : BuildConfig) :
    Exec W CreatedDevice := do
  let creationFlags : Nat := D3D11_CREATE_DEVICE_BGRA_SUPPORT
  -- #if defined(_DEBUG)
  let creationFlags ← (if cfg._DEBUG then do
      let available ← Exec.invoke P.SdkLayersAvailable Event.SdkLayersAvailable
      pure (if available then creationFlags ||| D3D11_CREATE_DEVICE_DEBUG else creationFlags)
    else pure creationFlags)
  let s ← Exec.members
  let hr ← D3D11CreateDevice P s.m_dxgiAdapter .HARDWARE creationFlags featureLevels
  if FAILED hr.1 then do
    -- If the initialization fails, fall back to the WARP device.
    let warp ← D3D11CreateDevice P none .WARP creationFlags featureLevels
    ThrowIfFailed .D3D11CreateDeviceWarp warp.1
    pure warp.2
  else pure hr.2

/-- The second half of `CreateDeviceResources` (source lines 190 to 225): store the device and the
context, wrap the device, cache its adapter and query the optional feature. -/
def StoreDevice {W : Type} (P : Platform W) (created : CreatedDevice) : Exec W Unit := do
  -- Store pointers to the Direct3D device and immediate context.
  let hrDevice ← ComPtrAs P created.device .D3DDeviceMember (fun p s => { s with m_d3dDevice := p })
  ThrowIfFailed .DeviceAs hrDevice
  let hrContext ← ComPtrAs P created.context .D3DContextMember
    (fun p s => { s with m_d3dContext := p })
  ThrowIfFailed .ContextAs hrContext
  -- Acquire the DXGI interface for the Direct3D device.
  let hrDxgi ← ComPtrAs P created.device .IDXGIDevice3 (fun _ s => s)
  ThrowIfFailed .DxgiDeviceAs hrDxgi
  -- Wrap the native device using a WinRT interop object.
  let interop ← Exec.attempt (P.CreateDirect3DDevice created.device) .CreateDirect3DDevice
    (Event.CreateDirect3DDevice created.device) (Event.CreateDirect3DDeviceThrew created.device)
  Exec.assign (fun s => { s with m_d3dInteropDevice := some interop })
  -- Cache the DXGI adapter.
  let dxgiAdapter ← Exec.call (P.GetAdapter created.device) (Event.GetAdapter created.device)
  ThrowIfFailed .GetAdapter dxgiAdapter.1
  let hrAdapter ← ComPtrAs P dxgiAdapter.2 .DXGIAdapterMember
    (fun p s => { s with m_dxgiAdapter := p })
  ThrowIfFailed .AdapterAs hrAdapter
  -- Check for device support for the optional feature.
  let options ← Exec.call (P.CheckFeatureSupport created.device)
    (Event.CheckFeatureSupport created.device)
  if options.2 then Exec.assign (fun s => { s with m_supportsVprt := true }) else pure ()

/-- The body of `hlDX::DeviceResources::CreateDeviceResources`: its two halves in sequence. -/
def CreateDeviceResources {W : Type} (P : Platform W) (cfg : BuildConfig) : Exec W Unit := do
  let created ← CreateDeviceWithFallback P cfg
  StoreDevice P created

/-- The then-branch of `InitializeUsingHolographicSpace` (source lines 86 to 112): create the
DXGI factory and retrieve the adapter specified by the holographic space into `m_dxgiAdapter`.
`IID_PPV_ARGS(&m_dxgiAdapter)` releases the member before `EnumAdapterByLuid` is called. -/
def RetrieveAdapter {W : Type} (P : Platform W) (cfg : BuildConfig) (id : LUID) : Exec W Unit := do
  let createFlags : Nat := 0
  -- #ifdef DEBUG
  let createFlags ← (if cfg.DEBUG then do
      let available ← Exec.invoke P.SdkLayersAvailable Event.SdkLayersAvailable
      pure (if available then createFlags ||| DXGI_CREATE_FACTORY_DEBUG else createFlags)
    else pure createFlags)
  let dxgiFactory ← Exec.call (P.CreateDXGIFactory2 createFlags)
    (Event.CreateDXGIFactory2 createFlags)
  ThrowIfFailed .CreateDXGIFactory2 dxgiFactory.1
  let hrFactory4 ← ComPtrAs P dxgiFactory.2 .IDXGIFactory4 (fun _ s => s)
  ThrowIfFailed .FactoryAs hrFactory4
  Exec.assign (fun s => { s with m_dxgiAdapter := none })
  let adapter ← Exec.call (P.EnumAdapterByLuid dxgiFactory.2 id)
    (Event.EnumAdapterByLuid dxgiFactory.2 id)
  Exec.assign (fun s => { s with m_dxgiAdapter := if FAILED adapter.1 then none else some adapter.2 })
  ThrowIfFailed .EnumAdapterByLuid adapter.1

/-- The body of `hlDX::DeviceResources::InitializeUsingHolographicSpace`.  Dereferencing a null
`m_holographicSpace` throws `Platform::NullReferenceException`. -/
def InitializeUsingHolographicSpace {W : Type} (P : Platform W) (cfg : BuildConfig) :
    Exec W Unit := do
  let s ← Exec.members
  match s.m_holographicSpace with
  | none => Exec.throw ⟨.NullHolographicSpace, E_POINTER⟩
  | some space =>
    let primary ← Exec.read (P.PrimaryAdapterId space)
    let id : LUID := { LowPart := primary.LowPart, HighPart := primary.HighPart }
    (if id.HighPart ≠ 0 ∧ id.LowPart ≠ 0 then
      RetrieveAdapter P cfg id
    else
      Exec.assign (fun s => { s with m_dxgiAdapter := none }))
    CreateDeviceResources P cfg
    let s ← Exec.members
    Exec.notify (P.SetDirect3D11Device space s.m_d3dInteropDevice) .SetDirect3D11Device
      (Event.SetDirect3D11Device space s.m_d3dInteropDevice)

/-- The body of `hlDX::DeviceResources::SetHolographicSpace`. -/
def SetHolographicSpace {W : Type} (P : Platform W) (cfg : BuildConfig)
    (holographicSpace : Option HolographicSpace) : Exec W Unit := do
  Exec.assign (fun s => { s with m_holographicSpace := holographicSpace })
  InitializeUsingHolographicSpace P cfg

/-- The body of `hlDX::DeviceResources::HandleDeviceLost`.  The walk over the camera resources is
commented out in the source.  `m_deviceNotify` is read twice, before each callback: the second
read sees what the first callback and the recreation left. -/
def HandleDeviceLost {W : Type} (P : Platform W) (cfg : BuildConfig) : Exec W Unit := do
  let s ← Exec.members
  (match s.m_deviceNotify with
    | some sink => Exec.callback (P.OnDeviceLost sink) .OnDeviceLost (Event.OnDeviceLost sink)
    | none => pure ())
  InitializeUsingHolographicSpace P cfg
  let s ← Exec.members
  (match s.m_deviceNotify with
    | some sink =>
      Exec.callback (P.OnDeviceRestored sink) .OnDeviceRestored (Event.OnDeviceRestored sink)
    | none => pure ())

/-- The body of `hlDX::DeviceResources::Present`.  The walk over the camera poses is commented
out in the source. -/
def Present {W : Type} (P : Platform W) (cfg : BuildConfig) (frame : HolographicFrame) :
    Exec W Unit := do
  let presentResult ← Exec.invoke (P.PresentUsingCurrentPrediction frame)
    (Event.PresentUsingCurrentPrediction frame)
  if presentResult = .DeviceRemoved then HandleDeviceLost P cfg else pure ()

/-! ## Reading the list of external calls -/

/-- The sink a callback was made on, for the two callbacks of `IDeviceNotify`. -/
def Event.sink? : Event → Option DeviceNotify
  | .OnDeviceLost sink _ => some sink
  | .OnDeviceRestored sink _ => some sink
  | _ => none

/-- The calls of `D3D11CreateDevice`. -/
def Event.isCreateDevice : Event → Bool
  | .D3D11CreateDevice .. => true
  | _ => false

/-- The calls of `PresentUsingCurrentPrediction`. -/
def Event.isPresent : Event → Bool
  | .PresentUsingCurrentPrediction .. => true
  | _ => false

/-- The calls of `SetDirect3D11Device`, which publish an interop device to the platform. -/
def Event.isPublish : Event → Bool
  | .SetDirect3D11Device .. => true
  | _ => false

/-- The calls of `EnumAdapterByLuid`, which look an adapter up by identifier. -/
def Event.isLookup : Event → Bool
  | .EnumAdapterByLuid .. => true
  | _ => false

/-- The calls made while a device is being resolved and created: no callback of the sink, no
present, no publication. -/
def Event.isCreation (e : Event) : Bool :=
  e.sink?.isNone && !e.isPresent && !e.isPublish

/-- The failure categories of the specification. -/
inductive Failure
  | FactoryCreationFailure
  | AdapterNotFoundFailure
  | DeviceCreationFailure
  | InterfaceNotSupportedFailure
deriving DecidableEq, Repr

/-- Modelled from the spec: the category of a thrown exception.  `ThrowIfFailed` throws the same
exception type at every site; the specification names the failure by the step that failed:
`AdapterNotFoundFailure` for the lookup by identifier, `DeviceCreationFailure` when the second
creation attempt fails, `InterfaceNotSupportedFailure` when an interface of the created device or
context is missing.  It gives no category to the other sites. -/
def Site.failure : Site → Option Failure
  | .EnumAdapterByLuid => some .AdapterNotFoundFailure
  | .D3D11CreateDeviceWarp => some .DeviceCreationFailure
  | .DeviceAs => some .InterfaceNotSupportedFailure
  | .ContextAs => some .InterfaceNotSupportedFailure
  | .DxgiDeviceAs => some .InterfaceNotSupportedFailure
  | _ => none

/-- The category of the failure a run ended with, if it ended with one the specification names. -/
def Outcome.failure {W α : Type} (o : Outcome W α) : Option Failure :=
  match o.result with
  | .ok _ => none
  | .error t => t.site.failure

/-- What a conditional probe of the SDK layers leaves: the calls made and the value of the flags
variable.  In a build without the symbol nothing is called and the flags keep their base value;
with it, the probe is called once and the debug bit is set when the probe answers yes. -/
def ProbedFlags (enabled : Bool) (base debug : Nat) (probe : List Event) (flags : Nat) : Prop :=
  (enabled = false ∧ probe = [] ∧ flags = base) ∨
  (∃ b, enabled = true ∧ probe = [Event.SdkLayersAvailable b] ∧
    flags = if b then base ||| debug else base)

/-- What a run of `CreateDeviceWithFallback` from the members `s` can leave, case by case:
the hardware attempt succeeds; both attempts fail; the hardware attempt fails and the WARP
attempt succeeds. -/
def AttemptedShape (cfg : BuildConfig) (s : DeviceResources)
    (result : Except Thrown CreatedDevice) (members : DeviceResources) (events : List Event) :
    Prop :=
  ∃ probe flags hr0 c0,
    ProbedFlags cfg._DEBUG D3D11_CREATE_DEVICE_BGRA_SUPPORT D3D11_CREATE_DEVICE_DEBUG probe flags ∧
    ((FAILED hr0 = false ∧
        events = probe ++
          [Event.D3D11CreateDevice s.m_dxgiAdapter .HARDWARE flags featureLevels hr0 c0] ∧
        result = .ok c0 ∧
        members = { s with m_d3dFeatureLevel := c0.featureLevel.getD s.m_d3dFeatureLevel }) ∨
      (∃ hr1 c1, FAILED hr0 = true ∧ FAILED hr1 = true ∧
        events = probe ++
          [Event.D3D11CreateDevice s.m_dxgiAdapter .HARDWARE flags featureLevels hr0 c0,
            Event.D3D11CreateDevice none .WARP flags featureLevels hr1 c1] ∧
        result = .error ⟨.D3D11CreateDeviceWarp, hr1⟩ ∧
        members = { s with m_d3dFeatureLevel :=
          c1.featureLevel.getD (c0.featureLevel.getD s.m_d3dFeatureLevel) }) ∨
      (∃ hr1 c1, FAILED hr0 = true ∧ FAILED hr1 = false ∧
        events = probe ++
          [Event.D3D11CreateDevice s.m_dxgiAdapter .HARDWARE flags featureLevels hr0 c0,
            Event.D3D11CreateDevice none .WARP flags featureLevels hr1 c1] ∧
        result = .ok c1 ∧
        members = { s with m_d3dFeatureLevel :=
          c1.featureLevel.getD (c0.featureLevel.getD s.m_d3dFeatureLevel) }))

/-- What a run of `RetrieveAdapter` for the identifier `id` from the members `s` can leave, case
by case: the factory cannot be created; it lacks `IDXGIFactory4`; no adapter has the identifier;
the adapter is found and cached. -/
def RetrievedShape (cfg : BuildConfig) (id : LUID) (s : DeviceResources)
    (result : Except Thrown Unit) (members : DeviceResources) (events : List Event) : Prop :=
  ∃ probe flags hr1 factory,
    ProbedFlags cfg.DEBUG 0 DXGI_CREATE_FACTORY_DEBUG probe flags ∧
    ((FAILED hr1 = true ∧
        events = probe ++ [Event.CreateDXGIFactory2 flags hr1 factory] ∧
        result = .error ⟨.CreateDXGIFactory2, hr1⟩ ∧
        members = s) ∨
      (∃ hr2, FAILED hr1 = false ∧ FAILED hr2 = true ∧
        events = probe ++ [Event.CreateDXGIFactory2 flags hr1 factory,
          Event.QueryInterface factory .IDXGIFactory4 hr2] ∧
        result = .error ⟨.FactoryAs, hr2⟩ ∧
        members = s) ∨
      (∃ hr2 hr3 adapter, FAILED hr1 = false ∧ FAILED hr2 = false ∧ FAILED hr3 = true ∧
        events = probe ++ [Event.CreateDXGIFactory2 flags hr1 factory,
          Event.QueryInterface factory .IDXGIFactory4 hr2,
          Event.EnumAdapterByLuid factory id hr3 adapter] ∧
        result = .error ⟨.EnumAdapterByLuid, hr3⟩ ∧
        members = { s with m_dxgiAdapter := none }) ∨
      (∃ hr2 hr3 adapter, FAILED hr1 = false ∧ FAILED hr2 = false ∧ FAILED hr3 = false ∧
        events = probe ++ [Event.CreateDXGIFactory2 flags hr1 factory,
          Event.QueryInterface factory .IDXGIFactory4 hr2,
          Event.EnumAdapterByLuid factory id hr3 adapter] ∧
        result = .ok () ∧
        members = { s with m_dxgiAdapter := some adapter }))

/-- What a run of `StoreDevice` on the created device `c` from the members `s` can leave: the
result, the members and the calls made, case by case in the order of the source.  Each case names
the `HRESULT`s and values the platform returned up to that point. -/
def StoredShape (c : CreatedDevice) (s : DeviceResources) (result : Except Thrown Unit)
    (members : DeviceResources) (events : List Event) : Prop :=
  (∃ hr1, FAILED hr1 = true ∧
    events = [Event.QueryInterface c.device .D3DDeviceMember hr1] ∧
    result = .error ⟨.DeviceAs, hr1⟩ ∧
    members = { s with m_d3dDevice := none }) ∨
  (∃ hr1 hr2, FAILED hr1 = false ∧ FAILED hr2 = true ∧
    events = [Event.QueryInterface c.device .D3DDeviceMember hr1,
      Event.QueryInterface c.context .D3DContextMember hr2] ∧
    result = .error ⟨.ContextAs, hr2⟩ ∧
    members = { s with m_d3dDevice := some c.device, m_d3dContext := none }) ∨
  (∃ hr1 hr2 hr3, FAILED hr1 = false ∧ FAILED hr2 = false ∧ FAILED hr3 = true ∧
    events = [Event.QueryInterface c.device .D3DDeviceMember hr1,
      Event.QueryInterface c.context .D3DContextMember hr2,
      Event.QueryInterface c.device .IDXGIDevice3 hr3] ∧
    result = .error ⟨.DxgiDeviceAs, hr3⟩ ∧
    members = { s with m_d3dDevice := some c.device, m_d3dContext := some c.context }) ∨
  (∃ hr1 hr2 hr3 hrI, FAILED hr1 = false ∧ FAILED hr2 = false ∧ FAILED hr3 = false ∧
    events = [Event.QueryInterface c.device .D3DDeviceMember hr1,
      Event.QueryInterface c.context .D3DContextMember hr2,
      Event.QueryInterface c.device .IDXGIDevice3 hr3,
      Event.CreateDirect3DDeviceThrew c.device hrI] ∧
    result = .error ⟨.CreateDirect3DDevice, hrI⟩ ∧
    members = { s with m_d3dDevice := some c.device, m_d3dContext := some c.context }) ∨
  (∃ hr1 hr2 hr3 i hr4 a, FAILED hr1 = false ∧ FAILED hr2 = false ∧ FAILED hr3 = false ∧
    FAILED hr4 = true ∧
    events = [Event.QueryInterface c.device .D3DDeviceMember hr1,
      Event.QueryInterface c.context .D3DContextMember hr2,
      Event.QueryInterface c.device .IDXGIDevice3 hr3,
      Event.CreateDirect3DDevice c.device i,
      Event.GetAdapter c.device hr4 a] ∧
    result = .error ⟨.GetAdapter, hr4⟩ ∧
    members = { s with m_d3dDevice := some c.device, m_d3dContext := some c.context,
                       m_d3dInteropDevice := some i }) ∨
  (∃ hr1 hr2 hr3 i hr4 a hr5, FAILED hr1 = false ∧ FAILED hr2 = false ∧ FAILED hr3 = false ∧
    FAILED hr4 = false ∧ FAILED hr5 = true ∧
    events = [Event.QueryInterface c.device .D3DDeviceMember hr1,
      Event.QueryInterface c.context .D3DContextMember hr2,
      Event.QueryInterface c.device .IDXGIDevice3 hr3,
      Event.CreateDirect3DDevice c.device i,
      Event.GetAdapter c.device hr4 a,
      Event.QueryInterface a .DXGIAdapterMember hr5] ∧
    result = .error ⟨.AdapterAs, hr5⟩ ∧
    members = { s with m_d3dDevice := some c.device, m_d3dContext := some c.context,
                       m_d3dInteropDevice := some i, m_dxgiAdapter := none }) ∨
  (∃ hr1 hr2 hr3 i hr4 a hr5 hr6 v, FAILED hr1 = false ∧ FAILED hr2 = false ∧
    FAILED hr3 = false ∧ FAILED hr4 = false ∧ FAILED hr5 = false ∧
    events = [Event.QueryInterface c.device .D3DDeviceMember hr1,
      Event.QueryInterface c.context .D3DContextMember hr2,
      Event.QueryInterface c.device .IDXGIDevice3 hr3,
      Event.CreateDirect3DDevice c.device i,
      Event.GetAdapter c.device hr4 a,
      Event.QueryInterface a .DXGIAdapterMember hr5,
      Event.CheckFeatureSupport c.device hr6 v] ∧
    result = .ok () ∧
    members = { s with m_d3dDevice := some c.device, m_d3dContext := some c.context,
                       m_d3dInteropDevice := some i, m_dxgiAdapter := some a,
                       m_supportsVprt := v || s.m_supportsVprt })

/-- What a run of `CreateDeviceResources` from the members `s` can leave: the first half throws,
or it returns a created device and the second half runs on it. -/
def CreatedShape (cfg : BuildConfig) (s : DeviceResources) (result : Except Thrown Unit)
    (members : DeviceResources) (events : List Event) : Prop :=
  ∃ r1 m1 e1, AttemptedShape cfg s r1 m1 e1 ∧
    ((∃ t, r1 = .error t ∧ result = .error t ∧ members = m1 ∧ events = e1) ∨
      (∃ c e2, r1 = .ok c ∧ StoredShape c m1 result members e2 ∧ events = e1 ++ e2))

/-- What a run of `InitializeUsingHolographicSpace` from the members `s` can leave, where
`primary` gives the primary adapter identifier of a holographic space at the start of the run:
no holographic space; or the adapter step (a lookup when both parts of the identifier are
non-zero, a reset of the cached adapter otherwise), then device creation, then the publication of
the stored interop device, which returns or throws. -/
def InitializedShape (cfg : BuildConfig) (primary : HolographicSpace → LUID)
    (s : DeviceResources) (result : Except Thrown Unit) (members : DeviceResources)
    (events : List Event) : Prop :=
  (s.m_holographicSpace = none ∧ result = .error ⟨.NullHolographicSpace, E_POINTER⟩ ∧
    members = s ∧ events = []) ∨
  (∃ space r0 m0 e0, s.m_holographicSpace = some space ∧
    ((((primary space).HighPart ≠ 0 ∧ (primary space).LowPart ≠ 0) ∧
        RetrievedShape cfg (primary space) s r0 m0 e0) ∨
      (¬((primary space).HighPart ≠ 0 ∧ (primary space).LowPart ≠ 0) ∧
        r0 = .ok () ∧ m0 = { s with m_dxgiAdapter := none } ∧ e0 = [])) ∧
    ((∃ t, r0 = .error t ∧ result = .error t ∧ members = m0 ∧ events = e0) ∨
      (∃ r1 m1 e1, r0 = .ok () ∧ CreatedShape cfg m0 r1 m1 e1 ∧
        ((∃ t, r1 = .error t ∧ result = .error t ∧ members = m1 ∧ events = e0 ++ e1) ∨
          (r1 = .ok () ∧
            (result = .ok () ∨ ∃ hr, result = .error ⟨.SetDirect3D11Device, hr⟩) ∧
            members = m1 ∧
            events = e0 ++ e1 ++ [Event.SetDirect3D11Device space m1.m_d3dInteropDevice])))))

/-- The outcome of running `x` from `s` and `w` satisfies `Q`. -/
@[irreducible]
def wp {W α : Type} (x : Exec W α) (s : DeviceResources) (w : W) (Q : Outcome W α → Prop) : Prop :=
  Q (x.run s w)

/-! ## A scripted platform

A concrete outside world, used to run the member functions on explicit inputs.  The world state
is the number of external calls made so far; it numbers the objects the platform hands out, so
two creations never return the same device. -/

/-- The status `E_NOINTERFACE` (0x80004002). -/
def E_NOINTERFACE : HRESULT := -2147467262

/-- The status `E_FAIL` (0x80004005). -/
def E_FAIL : HRESULT := -2147467259

/-- The status `DXGI_ERROR_NOT_FOUND` (0x887A0002). -/
def DXGI_ERROR_NOT_FOUND : HRESULT := -2005270526

/-- How the scripted platform answers when asked at a given moment.  The last four fields say
whether `CreateDirect3DDevice`, `SetDirect3D11Device` and the callback `OnDeviceLost` throw, and
what the callback `OnDeviceLost` passes to `RegisterDeviceNotify` if it calls it. -/
structure Script where
  primaryAdapterId : LUID
  systemAdapters : List (LUID × ComObject)
  sdkLayers : Bool
  factoryHr : HRESULT
  refused : List Interface
  hardwareHr : HRESULT
  warpHr : HRESULT
  getAdapterHr : HRESULT
  featureHr : HRESULT
  vprt : Bool
  presentResult : HolographicFramePresentResult
  wrapThrows : Option HRESULT
  publishThrows : Option HRESULT
  lostThrows : Option HRESULT
  lostRegisters : Option (Option DeviceNotify)

/-- The scripted platform: at world state `w` it answers as `script w` says. -/
def scripted (script : Nat → Script) : Platform Nat where
  PrimaryAdapterId := fun _ w => (script w).primaryAdapterId
  SdkLayersAvailable := fun w => ((script w).sdkLayers, w + 1)
  CreateDXGIFactory2 := fun _ w => ⟨(script w).factoryHr, 1000 + w, w + 1⟩
  QueryInterface := fun _ iid w =>
    ⟨if iid ∈ (script w).refused then E_NOINTERFACE else 0, (), w + 1⟩
  EnumAdapterByLuid := fun _ id w =>
    match (script w).systemAdapters.lookup id with
    | some adapter => ⟨0, adapter, w + 1⟩
    | none => ⟨DXGI_ERROR_NOT_FOUND, 0, w + 1⟩
  D3D11CreateDevice := fun _ driverType _ _ w =>
    ⟨if driverType = .HARDWARE then (script w).hardwareHr else (script w).warpHr,
      { device := 2000 + w, featureLevel := some 0xb100, context := 3000 + w }, w + 1⟩
  CreateDirect3DDevice := fun dxgiDevice w =>
    (match (script w).wrapThrows with
      | none => .ok (5000 + dxgiDevice)
      | some hr => .error hr, w + 1)
  GetAdapter := fun dxgiDevice w => ⟨(script w).getAdapterHr, 4000 + dxgiDevice, w + 1⟩
  CheckFeatureSupport := fun _ w => ⟨(script w).featureHr, (script w).vprt, w + 1⟩
  SetDirect3D11Device := fun _ _ w => ((script w).publishThrows, w + 1)
  PresentUsingCurrentPrediction := fun _ w => ((script w).presentResult, w + 1)
  OnDeviceLost := fun _ members w =>
    ⟨(script w).lostThrows,
      match (script w).lostRegisters with
      | none => members
      | some deviceNotify => { members with m_deviceNotify := deviceNotify },
      w + 1⟩
  OnDeviceRestored := fun _ members w => ⟨none, members, w + 1⟩

/-- A script in which every call succeeds: no preferred adapter, one system adapter, a device
that supports the optional feature, a sink that returns and registers nothing. -/
def healthy : Script where
  primaryAdapterId := ⟨0, 0⟩
  systemAdapters := [(⟨4660, 0⟩, 77)]
  sdkLayers := true
  factoryHr := 0
  refused := []
  hardwareHr := 0
  warpHr := 0
  getAdapterHr := 0
  featureHr := 0
  vprt := true
  presentResult := .Success
  wrapThrows := none
  publishThrows := none
  lostThrows := none
  lostRegisters := none

/-- The member variables of a freshly constructed `DeviceResources`. -/
def fresh : DeviceResources where
  m_holographicSpace := none
  m_dxgiAdapter := none
  m_d3dDevice := none
  m_d3dContext := none
  m_d3dInteropDevice := none
  m_d3dFeatureLevel := 0
  m_supportsVprt := false
  m_deviceNotify := none

/-- A release build. -/
def release : BuildConfig := ⟨false, false⟩

/-- The scripted platform on which every call succeeds. -/
def healthyPlatform : Platform Nat := scripted (fun _ => healthy)

/-- Freshly constructed members with the holographic space 1 attached. -/
def attached : DeviceResources := { fresh with m_holographicSpace := some 1 }

/-- The members `attached` with the sink 9 registered. -/
def listening : DeviceResources := { attached with m_deviceNotify := some 9 }

/-- A script in which the holographic space names the system adapter 77 by its identifier, whose
low part is 4660 and whose high part is zero. -/
def lowPartOnly : Script := { healthy with primaryAdapterId := ⟨4660, 0⟩ }

/-- A script in which the holographic space names an adapter the system does not have: the low
part of the identifier is zero, the high part is 7. -/
def unknownAdapter : Script := { healthy with primaryAdapterId := ⟨0, 7⟩ }

/-- A script in which the first nine calls (one full initialization in a release build) are
answered as in `healthy`, and from then on the device reports that it lacks the optional
feature. -/
def featureLostLater (w : Nat) : Script :=
  if w < 9 then healthy else { healthy with vprt := false }

/-- A script in which the first nine calls are answered as in `healthy`, and from then on the
interface of the member `m_d3dContext` is refused. -/
def contextRefusedLater (w : Nat) : Script :=
  if w < 9 then healthy else { healthy with refused := [.D3DContextMember] }

/-- The members a first `SetHolographicSpace` leaves on the scripted platform when its nine calls
are answered as in `healthy`, in a release build, starting from `fresh` in the world 0. -/
def initialized : DeviceResources where
  m_holographicSpace := some 1
  m_dxgiAdapter := some 6000
  m_d3dDevice := some 2000
  m_d3dContext := some 3000
  m_d3dInteropDevice := some 7000
  m_d3dFeatureLevel := 0xb100
  m_supportsVprt := true
  m_deviceNotify := none

/-- A script in which the sink, called back through `OnDeviceLost`, deregisters itself by
calling `RegisterDeviceNotify(nullptr)`. -/
def sinkDeregisters : Script := { healthy with lostRegisters := some none }

/-- A script in which the sink throws from `OnDeviceLost`. -/
def sinkThrows : Script := { healthy with lostThrows := some E_FAIL }

/-! ## Theorems -/

variable {W α β : Type}

theorem wp_iff (x : Exec W α) (s : DeviceResources) (w : W) (Q : Outcome W α → Prop) :
    wp x s w Q ↔ Q (x.run s w) := by
  unfold wp
  exact Iff.rfl

theorem wp_pure (a : α) (s : DeviceResources) (w : W) (Q : Outcome W α → Prop) :
    wp (Pure.pure a : Exec W α) s w Q ↔ Q ⟨.ok a, s, w, []⟩ := wp_iff _ _ _ _

theorem wp_pure_fn (a : α) (s : DeviceResources) (w : W) (Q : Outcome W α → Prop) :
    wp (Exec.pure a : Exec W α) s w Q ↔ Q ⟨.ok a, s, w, []⟩ := wp_iff _ _ _ _

theorem wp_bind_fn (x : Exec W α) (f : α → Exec W β) (s : DeviceResources) (w : W)
    (Q : Outcome W β → Prop) :
    wp (Exec.bind x f) s w Q ↔
      wp x s w (fun o =>
        match o.result with
        | .ok a => wp (f a) o.members o.world (fun o2 => Q { o2 with events := o.events ++ o2.events })
        | .error t => Q ⟨.error t, o.members, o.world, o.events⟩) := by
  simp only [wp_iff]
  unfold Exec.bind Exec.run
  split <;> simp_all

theorem wp_bind (x : Exec W α) (f : α → Exec W β) (s : DeviceResources) (w : W)
    (Q : Outcome W β → Prop) :
    wp (x >>= f) s w Q ↔
      wp x s w (fun o =>
        match o.result with
        | .ok a => wp (f a) o.members o.world (fun o2 => Q { o2 with events := o.events ++ o2.events })
        | .error t => Q ⟨.error t, o.members, o.world, o.events⟩) := wp_bind_fn x f s w Q

theorem wp_throw (t : Thrown) (s : DeviceResources) (w : W) (Q : Outcome W α → Prop) :
    wp (Exec.throw t : Exec W α) s w Q ↔ Q ⟨.error t, s, w, []⟩ := wp_iff _ _ _ _

theorem wp_members (s : DeviceResources) (w : W) (Q : Outcome W DeviceResources → Prop) :
    wp Exec.members s w Q ↔ Q ⟨.ok s, s, w, []⟩ := wp_iff _ _ _ _

theorem wp_assign (f : DeviceResources → DeviceResources) (s : DeviceResources) (w : W)
    (Q : Outcome W Unit → Prop) :
    wp (Exec.assign f) s w Q ↔ Q ⟨.ok (), f s, w, []⟩ := wp_iff _ _ _ _

theorem wp_read (f : W → α) (s : DeviceResources) (w : W) (Q : Outcome W α → Prop) :
    wp (Exec.read f) s w Q ↔ Q ⟨.ok (f w), s, w, []⟩ := wp_iff _ _ _ _

theorem wp_call (f : W → Ret α W) (ev : HRESULT → α → Event) (s : DeviceResources) (w : W)
    (Q : Outcome W (HRESULT × α) → Prop) :
    wp (Exec.call f ev) s w Q ↔
      Q ⟨.ok ((f w).hr, (f w).out), s, (f w).world, [ev (f w).hr (f w).out]⟩ := wp_iff _ _ _ _

theorem wp_invoke (f : W → α × W) (ev : α → Event) (s : DeviceResources) (w : W)
    (Q : Outcome W α → Prop) :
    wp (Exec.invoke f ev) s w Q ↔ Q ⟨.ok (f w).1, s, (f w).2, [ev (f w).1]⟩ := wp_iff _ _ _ _

theorem wp_attempt (f : W → Except HRESULT α × W) (site : Site) (ev : α → Event)
    (threw : HRESULT → Event) (s : DeviceResources) (w : W) (Q : Outcome W α → Prop) :
    wp (Exec.attempt f site ev threw) s w Q ↔
      (∀ hr, (f w).1 = .error hr → Q ⟨.error ⟨site, hr⟩, s, (f w).2, [threw hr]⟩) ∧
      (∀ a, (f w).1 = .ok a → Q ⟨.ok a, s, (f w).2, [ev a]⟩) := by
  rw [wp_iff]
  unfold Exec.attempt Exec.run
  dsimp only
  cases h : (f w).1 <;> simp

theorem wp_notify (f : W → Option HRESULT × W) (site : Site) (ev : Event) (s : DeviceResources)
    (w : W) (Q : Outcome W Unit → Prop) :
    wp (Exec.notify f site ev) s w Q ↔
      (∀ hr, (f w).1 = some hr → Q ⟨.error ⟨site, hr⟩, s, (f w).2, [ev]⟩) ∧
      ((f w).1 = none → Q ⟨.ok (), s, (f w).2, [ev]⟩) := by
  rw [wp_iff]
  unfold Exec.notify Exec.run
  dsimp only
  cases h : (f w).1 <;> simp

theorem wp_callback (f : DeviceResources → W → CallbackReturn W) (site : Site)
    (ev : DeviceResources → Event) (s : DeviceResources) (w : W) (Q : Outcome W Unit → Prop) :
    wp (Exec.callback f site ev) s w Q ↔
      (∀ hr, (f s w).thrown = some hr →
        Q ⟨.error ⟨site, hr⟩, (f s w).members, (f s w).world, [ev s]⟩) ∧
      ((f s w).thrown = none → Q ⟨.ok (), (f s w).members, (f s w).world, [ev s]⟩) := by
  rw [wp_iff]
  unfold Exec.callback Exec.run
  dsimp only
  cases h : (f s w).thrown <;> simp

theorem wp_ite (c : Prop) [Decidable c] (x y : Exec W α) (s : DeviceResources) (w : W)
    (Q : Outcome W α → Prop) :
    wp (if c then x else y) s w Q ↔ (c → wp x s w Q) ∧ (¬c → wp y s w Q) := by
  by_cases h : c <;> simp [h]

theorem wp_ThrowIfFailed (site : Site) (hr : HRESULT) (s : DeviceResources) (w : W)
    (Q : Outcome W Unit → Prop) :
    wp (ThrowIfFailed site hr) s w Q ↔
      (FAILED hr = true → Q ⟨.error ⟨site, hr⟩, s, w, []⟩) ∧
      (FAILED hr = false → Q ⟨.ok (), s, w, []⟩) := by
  unfold ThrowIfFailed
  rw [wp_ite, wp_throw, wp_pure_fn]
  simp only [Bool.not_eq_true]

theorem wp_ComPtrAs (P : Platform W) (source : ComObject) (iid : Interface)
    (target : Option ComObject → DeviceResources → DeviceResources) (s : DeviceResources) (w : W)
    (Q : Outcome W HRESULT → Prop) :
    wp (ComPtrAs P source iid target) s w Q ↔
      Q ⟨.ok (P.QueryInterface source iid w).hr,
        target (if FAILED (P.QueryInterface source iid w).hr then none else some source)
          (target none s),
        (P.QueryInterface source iid w).world,
        [Event.QueryInterface source iid (P.QueryInterface source iid w).hr]⟩ := by
  simp [ComPtrAs, wp_bind, wp_assign, wp_call, wp_pure]

theorem wp_D3D11CreateDevice (P : Platform W) (adapter : Option ComObject)
    (driverType : D3D_DRIVER_TYPE) (flags : Nat) (levels : List D3D_FEATURE_LEVEL)
    (s : DeviceResources) (w : W) (Q : Outcome W (HRESULT × CreatedDevice) → Prop) :
    wp (D3D11CreateDevice P adapter driverType flags levels) s w Q ↔
      Q ⟨.ok ((P.D3D11CreateDevice adapter driverType flags levels w).hr,
              (P.D3D11CreateDevice adapter driverType flags levels w).out),
        { s with m_d3dFeatureLevel :=
            ((P.D3D11CreateDevice adapter driverType flags levels w).out.featureLevel.getD
              s.m_d3dFeatureLevel) },
        (P.D3D11CreateDevice adapter driverType flags levels w).world,
        [Event.D3D11CreateDevice adapter driverType flags levels
          (P.D3D11CreateDevice adapter driverType flags levels w).hr
          (P.D3D11CreateDevice adapter driverType flags levels w).out]⟩ := by
  simp [D3D11CreateDevice, wp_bind, wp_assign, wp_call, wp_pure]

theorem StoreDevice_shape (P : Platform W) (c : CreatedDevice) (s : DeviceResources) (w : W) :
    StoredShape c s ((StoreDevice P c).run s w).result ((StoreDevice P c).run s w).members
      ((StoreDevice P c).run s w).events := by
  refine (wp_iff (StoreDevice P c) s w (fun o => StoredShape c s o.result o.members o.events)).mp ?_
  simp only [StoreDevice, wp_bind, wp_ite, wp_pure, wp_ComPtrAs, wp_ThrowIfFailed,
    wp_call, wp_attempt, wp_assign, wp_members, List.cons_append, List.nil_append,
    List.append_nil]
  generalize P.QueryInterface c.device .D3DDeviceMember w = r1
  generalize P.QueryInterface c.context .D3DContextMember r1.world = r2
  generalize P.QueryInterface c.device .IDXGIDevice3 r2.world = r3
  generalize P.CreateDirect3DDevice c.device r3.world = r4
  generalize P.GetAdapter c.device r4.2 = r5
  generalize P.QueryInterface r5.out .DXGIAdapterMember r5.world = r6
  generalize P.CheckFeatureSupport c.device r6.world = r7
  refine ⟨fun h1 => ?_, fun h1 => ⟨fun h2 => ?_, fun h2 => ⟨fun h3 => ?_, fun h3 =>
    ⟨fun hrI _ => ?_, fun i _ => ⟨fun h5 => ?_, fun h5 => ⟨fun h6 => ?_, fun h6 =>
      ⟨fun hv => ?_, fun hv => ?_⟩⟩⟩⟩⟩⟩⟩
  · exact Or.inl ⟨r1.hr, h1, rfl, rfl, by simp [h1]⟩
  · exact Or.inr (Or.inl ⟨r1.hr, r2.hr, h1, h2, rfl, rfl, by simp [h1, h2]⟩)
  · exact Or.inr (Or.inr (Or.inl ⟨r1.hr, r2.hr, r3.hr, h1, h2, h3, rfl, rfl, by simp [h1, h2]⟩))
  · exact Or.inr (Or.inr (Or.inr (Or.inl
      ⟨r1.hr, r2.hr, r3.hr, hrI, h1, h2, h3, rfl, rfl, by simp [h1, h2]⟩)))
  · exact Or.inr (Or.inr (Or.inr (Or.inr (Or.inl
      ⟨r1.hr, r2.hr, r3.hr, i, r5.hr, r5.out, h1, h2, h3, h5, rfl, rfl, by simp [h1, h2]⟩))))
  · exact Or.inr (Or.inr (Or.inr (Or.inr (Or.inr (Or.inl
      ⟨r1.hr, r2.hr, r3.hr, i, r5.hr, r5.out, r6.hr, h1, h2, h3, h5, h6, rfl, rfl,
        by simp [h1, h2, h6]⟩)))))
  · exact Or.inr (Or.inr (Or.inr (Or.inr (Or.inr (Or.inr
      ⟨r1.hr, r2.hr, r3.hr, i, r5.hr, r5.out, r6.hr, r7.hr, r7.out, h1, h2, h3, h5, h6, rfl,
        rfl, by simp [h1, h2, h6, hv]⟩)))))
  · exact Or.inr (Or.inr (Or.inr (Or.inr (Or.inr (Or.inr
      ⟨r1.hr, r2.hr, r3.hr, i, r5.hr, r5.out, r6.hr, r7.hr, r7.out, h1, h2, h3, h5, h6, rfl,
        rfl, by simp [h1, h2, h6, hv]⟩)))))

theorem CreateDeviceWithFallback_shape (P : Platform W) (cfg : BuildConfig)
    (s : DeviceResources) (w : W) :
    AttemptedShape cfg s ((CreateDeviceWithFallback P cfg).run s w).result
      ((CreateDeviceWithFallback P cfg).run s w).members
      ((CreateDeviceWithFallback P cfg).run s w).events := by
  refine (wp_iff (CreateDeviceWithFallback P cfg) s w
    (fun o => AttemptedShape cfg s o.result o.members o.events)).mp ?_
  obtain ⟨dbg, dbg2⟩ := cfg
  cases dbg2
  · simp only [CreateDeviceWithFallback, wp_bind, wp_ite, wp_pure, wp_D3D11CreateDevice,
      wp_ThrowIfFailed, wp_invoke, wp_members, List.cons_append, List.nil_append,
      List.append_nil, Bool.false_eq_true, false_implies, true_and, not_false_eq_true,
      true_implies]
    generalize P.D3D11CreateDevice s.m_dxgiAdapter .HARDWARE D3D11_CREATE_DEVICE_BGRA_SUPPORT
      featureLevels w = r1
    generalize P.D3D11CreateDevice none .WARP D3D11_CREATE_DEVICE_BGRA_SUPPORT
      featureLevels r1.world = r2
    refine ⟨fun h1 => ⟨fun h2 => ?_, fun h2 => ?_⟩, fun h1 => ?_⟩
    · exact ⟨[], _, r1.hr, r1.out, Or.inl ⟨rfl, rfl, rfl⟩,
        Or.inr (Or.inl ⟨r2.hr, r2.out, h1, h2, rfl, rfl, rfl⟩)⟩
    · exact ⟨[], _, r1.hr, r1.out, Or.inl ⟨rfl, rfl, rfl⟩,
        Or.inr (Or.inr ⟨r2.hr, r2.out, h1, h2, rfl, rfl, rfl⟩)⟩
    · exact ⟨[], _, r1.hr, r1.out, Or.inl ⟨rfl, rfl, rfl⟩,
        Or.inl ⟨by simpa using h1, rfl, rfl, rfl⟩⟩
  · simp only [CreateDeviceWithFallback, wp_bind, wp_ite, wp_pure, wp_D3D11CreateDevice,
      wp_ThrowIfFailed, wp_invoke, wp_members, List.cons_append, List.nil_append,
      List.append_nil, not_true_eq_false, false_implies, and_true,
      true_implies]
    generalize P.SdkLayersAvailable w = r0
    generalize P.D3D11CreateDevice s.m_dxgiAdapter .HARDWARE
      (if r0.1 = true then D3D11_CREATE_DEVICE_BGRA_SUPPORT ||| D3D11_CREATE_DEVICE_DEBUG
        else D3D11_CREATE_DEVICE_BGRA_SUPPORT) featureLevels r0.2 = r1
    generalize P.D3D11CreateDevice none .WARP
      (if r0.1 = true then D3D11_CREATE_DEVICE_BGRA_SUPPORT ||| D3D11_CREATE_DEVICE_DEBUG
        else D3D11_CREATE_DEVICE_BGRA_SUPPORT) featureLevels r1.world = r2
    refine ⟨fun h1 => ⟨fun h2 => ?_, fun h2 => ?_⟩, fun h1 => ?_⟩
    · exact ⟨_, _, r1.hr, r1.out, Or.inr ⟨r0.1, rfl, rfl, rfl⟩,
        Or.inr (Or.inl ⟨r2.hr, r2.out, h1, h2, rfl, rfl, rfl⟩)⟩
    · exact ⟨_, _, r1.hr, r1.out, Or.inr ⟨r0.1, rfl, rfl, rfl⟩,
        Or.inr (Or.inr ⟨r2.hr, r2.out, h1, h2, rfl, rfl, rfl⟩)⟩
    · exact ⟨_, _, r1.hr, r1.out, Or.inr ⟨r0.1, rfl, rfl, rfl⟩,
        Or.inl ⟨by simpa using h1, rfl, rfl, rfl⟩⟩


theorem RetrieveAdapter_shape (P : Platform W) (cfg : BuildConfig) (id : LUID)
    (s : DeviceResources) (w : W) :
    RetrievedShape cfg id s ((RetrieveAdapter P cfg id).run s w).result
      ((RetrieveAdapter P cfg id).run s w).members
      ((RetrieveAdapter P cfg id).run s w).events := by
  refine (wp_iff (RetrieveAdapter P cfg id) s w
    (fun o => RetrievedShape cfg id s o.result o.members o.events)).mp ?_
  obtain ⟨dbg, dbg2⟩ := cfg
  cases dbg
  · simp only [RetrieveAdapter, wp_bind, wp_ite, wp_pure, wp_ComPtrAs, wp_call, wp_assign,
      wp_ThrowIfFailed, wp_invoke, wp_members, List.cons_append, List.nil_append,
      List.append_nil, Bool.false_eq_true, false_implies, true_and, not_false_eq_true,
      true_implies]
    generalize P.CreateDXGIFactory2 0 w = r1
    generalize P.QueryInterface r1.out .IDXGIFactory4 r1.world = r2
    generalize P.EnumAdapterByLuid r1.out id r2.world = r3
    refine ⟨fun h1 => ?_, fun h1 => ⟨fun h2 => ?_, fun h2 => ⟨fun h3 => ?_, fun h3 => ?_⟩⟩⟩
    · exact ⟨[], _, r1.hr, r1.out, Or.inl ⟨rfl, rfl, rfl⟩, Or.inl ⟨h1, rfl, rfl, rfl⟩⟩
    · exact ⟨[], _, r1.hr, r1.out, Or.inl ⟨rfl, rfl, rfl⟩,
        Or.inr (Or.inl ⟨r2.hr, h1, h2, rfl, rfl, rfl⟩)⟩
    · exact ⟨[], _, r1.hr, r1.out, Or.inl ⟨rfl, rfl, rfl⟩,
        Or.inr (Or.inr (Or.inl ⟨r2.hr, r3.hr, r3.out, h1, h2, h3, rfl, rfl, by simp [h3]⟩))⟩
    · exact ⟨[], _, r1.hr, r1.out, Or.inl ⟨rfl, rfl, rfl⟩,
        Or.inr (Or.inr (Or.inr ⟨r2.hr, r3.hr, r3.out, h1, h2, h3, rfl, rfl, by simp [h3]⟩))⟩
  · simp only [RetrieveAdapter, wp_bind, wp_ite, wp_pure, wp_ComPtrAs, wp_call, wp_assign,
      wp_ThrowIfFailed, wp_invoke, wp_members, List.cons_append, List.nil_append,
      List.append_nil, not_true_eq_false, false_implies, and_true,
      true_implies]
    generalize P.SdkLayersAvailable w = r0
    generalize P.CreateDXGIFactory2
      (if r0.1 = true then 0 ||| DXGI_CREATE_FACTORY_DEBUG else 0) r0.2 = r1
    generalize P.QueryInterface r1.out .IDXGIFactory4 r1.world = r2
    generalize P.EnumAdapterByLuid r1.out id r2.world = r3
    refine ⟨fun h1 => ?_, fun h1 => ⟨fun h2 => ?_, fun h2 => ⟨fun h3 => ?_, fun h3 => ?_⟩⟩⟩
    · exact ⟨_, _, r1.hr, r1.out, Or.inr ⟨r0.1, rfl, rfl, rfl⟩, Or.inl ⟨h1, rfl, rfl, rfl⟩⟩
    · exact ⟨_, _, r1.hr, r1.out, Or.inr ⟨r0.1, rfl, rfl, rfl⟩,
        Or.inr (Or.inl ⟨r2.hr, h1, h2, rfl, rfl, rfl⟩)⟩
    · exact ⟨_, _, r1.hr, r1.out, Or.inr ⟨r0.1, rfl, rfl, rfl⟩,
        Or.inr (Or.inr (Or.inl ⟨r2.hr, r3.hr, r3.out, h1, h2, h3, rfl, rfl, by simp [h3]⟩))⟩
    · exact ⟨_, _, r1.hr, r1.out, Or.inr ⟨r0.1, rfl, rfl, rfl⟩,
        Or.inr (Or.inr (Or.inr ⟨r2.hr, r3.hr, r3.out, h1, h2, h3, rfl, rfl, by simp [h3]⟩))⟩

theorem run_bind (x : Exec W α) (f : α → Exec W β) (s : DeviceResources) (w : W) :
    (x >>= f).run s w =
      match (x.run s w).result with
      | .ok a =>
        { (f a).run (x.run s w).members (x.run s w).world with
          events := (x.run s w).events ++ ((f a).run (x.run s w).members (x.run s w).world).events }
      | .error t => ⟨.error t, (x.run s w).members, (x.run s w).world, (x.run s w).events⟩ := rfl

theorem CreateDeviceResources_shape (P : Platform W) (cfg : BuildConfig) (s : DeviceResources)
    (w : W) :
    CreatedShape cfg s ((CreateDeviceResources P cfg).run s w).result
      ((CreateDeviceResources P cfg).run s w).members
      ((CreateDeviceResources P cfg).run s w).events := by
  have h1 := CreateDeviceWithFallback_shape P cfg s w
  refine ⟨_, _, _, h1, ?_⟩
  unfold CreateDeviceResources
  rw [run_bind]
  cases h : ((CreateDeviceWithFallback P cfg).run s w).result with
  | error t => exact Or.inl ⟨t, rfl, rfl, rfl, rfl⟩
  | ok c => exact Or.inr ⟨c, _, rfl, StoreDevice_shape P c _ _, rfl⟩

theorem InitializeUsingHolographicSpace_shape (P : Platform W) (cfg : BuildConfig)
    (s : DeviceResources) (w : W) :
    InitializedShape cfg (fun space => P.PrimaryAdapterId space w) s
      ((InitializeUsingHolographicSpace P cfg).run s w).result
      ((InitializeUsingHolographicSpace P cfg).run s w).members
      ((InitializeUsingHolographicSpace P cfg).run s w).events := by
  refine (wp_iff (InitializeUsingHolographicSpace P cfg) s w
    (fun o => InitializedShape cfg (fun space => P.PrimaryAdapterId space w) s
      o.result o.members o.events)).mp ?_
  unfold InitializeUsingHolographicSpace
  rw [wp_bind, wp_members]
  dsimp only
  cases hs : s.m_holographicSpace with
  | none =>
    dsimp only
    rw [wp_throw]
    exact Or.inl ⟨hs, rfl, rfl, rfl⟩
  | some space =>
    dsimp only
    simp only [wp_bind, wp_read, wp_ite, wp_assign, wp_members, wp_notify, wp_pure,
      wp_iff (CreateDeviceResources P cfg), wp_iff (RetrieveAdapter P cfg _),
      List.nil_append, List.append_nil]
    refine ⟨fun hc => ?_, fun hc => ?_⟩
    · have hR := RetrieveAdapter_shape P cfg
        ⟨(P.PrimaryAdapterId space w).LowPart, (P.PrimaryAdapterId space w).HighPart⟩ s w
      generalize (RetrieveAdapter P cfg
        ⟨(P.PrimaryAdapterId space w).LowPart, (P.PrimaryAdapterId space w).HighPart⟩).run s w
        = o0 at hR ⊢
      obtain ⟨r0, m0, w0, e0⟩ := o0
      cases r0 with
      | error t => exact Or.inr ⟨space, _, _, _, hs, Or.inl ⟨hc, hR⟩, Or.inl ⟨t, rfl, rfl, rfl, rfl⟩⟩
      | ok u =>
        have hC := CreateDeviceResources_shape P cfg m0 w0
        dsimp only at hC ⊢
        generalize (CreateDeviceResources P cfg).run m0 w0 = o1 at hC ⊢
        obtain ⟨r1, m1, w1, e1⟩ := o1
        cases r1 with
        | error t =>
          exact Or.inr ⟨space, _, _, _, hs, Or.inl ⟨hc, hR⟩,
            Or.inr ⟨_, _, _, rfl, hC, Or.inl ⟨t, rfl, rfl, rfl, rfl⟩⟩⟩
        | ok u1 =>
          refine ⟨fun hr _ => ?_, fun _ => ?_⟩
          · exact Or.inr ⟨space, _, _, _, hs, Or.inl ⟨hc, hR⟩,
              Or.inr ⟨_, _, _, rfl, hC, Or.inr ⟨rfl, Or.inr ⟨hr, rfl⟩, rfl, by simp⟩⟩⟩
          · exact Or.inr ⟨space, _, _, _, hs, Or.inl ⟨hc, hR⟩,
              Or.inr ⟨_, _, _, rfl, hC, Or.inr ⟨rfl, Or.inl rfl, rfl, by simp⟩⟩⟩
    · have hC := CreateDeviceResources_shape P cfg { s with m_dxgiAdapter := none } w
      generalize (CreateDeviceResources P cfg).run { s with m_dxgiAdapter := none } w = o1 at hC ⊢
      obtain ⟨r1, m1, w1, e1⟩ := o1
      cases r1 with
      | error t =>
        exact Or.inr ⟨space, _, _, _, hs, Or.inr ⟨hc, rfl, rfl, rfl⟩,
          Or.inr ⟨_, _, _, rfl, hC, Or.inl ⟨t, rfl, rfl, rfl, rfl⟩⟩⟩
      | ok u1 =>
        refine ⟨fun hr _ => ?_, fun _ => ?_⟩
        · exact Or.inr ⟨space, _, _, _, hs, Or.inr ⟨hc, rfl, rfl, rfl⟩,
            Or.inr ⟨_, _, _, rfl, hC, Or.inr ⟨rfl, Or.inr ⟨hr, rfl⟩, rfl, by simp⟩⟩⟩
        · exact Or.inr ⟨space, _, _, _, hs, Or.inr ⟨hc, rfl, rfl, rfl⟩,
            Or.inr ⟨_, _, _, rfl, hC, Or.inr ⟨rfl, Or.inl rfl, rfl, by simp⟩⟩⟩


/-! ### What the shapes imply -/

theorem ProbedFlags.isCreation {enabled : Bool} {base debug : Nat} {probe : List Event}
    {flags : Nat} (h : ProbedFlags enabled base debug probe flags) :
    ∀ x ∈ probe, x.isCreation = true ∧ x.isCreateDevice = false ∧ x.isLookup = false := by
  rcases h with ⟨_, rfl, _⟩ | ⟨b, _, rfl, _⟩ <;>
    simp [Event.isCreation, Event.sink?, Event.isPresent, Event.isPublish, Event.isCreateDevice,
      Event.isLookup]

theorem RetrievedShape.retrieved_frame {cfg : BuildConfig} {id : LUID} {s m : DeviceResources}
    {r : Except Thrown Unit} {e : List Event} (h : RetrievedShape cfg id s r m e) :
    m = { s with m_dxgiAdapter := m.m_dxgiAdapter } ∧
    (∀ x ∈ e, x.isCreation = true ∧ x.isCreateDevice = false) := by
  obtain ⟨probe, flags, hr1, factory, hp, h⟩ := h
  have hq := hp.isCreation
  rcases h with ⟨_, rfl, _, rfl⟩ | ⟨hr2, _, _, rfl, _, rfl⟩ |
    ⟨hr2, hr3, adapter, _, _, _, rfl, _, rfl⟩ | ⟨hr2, hr3, adapter, _, _, _, rfl, _, rfl⟩ <;>
  · refine ⟨rfl, ?_⟩
    rw [List.forall_mem_append]
    exact ⟨fun x hx => ⟨(hq x hx).1, (hq x hx).2.1⟩, by
      simp [Event.isCreation, Event.sink?, Event.isPresent, Event.isPublish,
        Event.isCreateDevice]⟩


theorem AttemptedShape.attempted_frame {cfg : BuildConfig} {s m : DeviceResources}
    {r : Except Thrown CreatedDevice} {e : List Event} (h : AttemptedShape cfg s r m e) :
    m = { s with m_d3dFeatureLevel := m.m_d3dFeatureLevel } ∧
    (∀ x ∈ e, x.isCreation = true ∧ x.isLookup = false) := by
  obtain ⟨probe, flags, hr0, c0, hp, h⟩ := h
  have hq := hp.isCreation
  rcases h with ⟨_, rfl, _, rfl⟩ | ⟨hr1, c1, _, _, rfl, _, rfl⟩ | ⟨hr1, c1, _, _, rfl, _, rfl⟩ <;>
  · refine ⟨rfl, ?_⟩
    rw [List.forall_mem_append]
    exact ⟨fun x hx => ⟨(hq x hx).1, (hq x hx).2.2⟩, by
      simp [Event.isCreation, Event.sink?, Event.isPresent, Event.isPublish, Event.isLookup]⟩

theorem StoredShape.stored_frame {c : CreatedDevice} {s m : DeviceResources}
    {r : Except Thrown Unit} {e : List Event} (h : StoredShape c s r m e) :
    m.m_deviceNotify = s.m_deviceNotify ∧ m.m_holographicSpace = s.m_holographicSpace ∧
    (∀ x ∈ e, x.isCreation = true ∧ x.isLookup = false ∧ x.isCreateDevice = false) := by
  rcases h with ⟨hr1, _, rfl, _, rfl⟩ | ⟨hr1, hr2, _, _, rfl, _, rfl⟩ |
    ⟨hr1, hr2, hr3, _, _, _, rfl, _, rfl⟩ | ⟨hr1, hr2, hr3, hrI, _, _, _, rfl, _, rfl⟩ |
    ⟨hr1, hr2, hr3, i, hr4, a, _, _, _, _, rfl, _, rfl⟩ |
    ⟨hr1, hr2, hr3, i, hr4, a, hr5, _, _, _, _, _, rfl, _, rfl⟩ |
    ⟨hr1, hr2, hr3, i, hr4, a, hr5, hr6, v, _, _, _, _, _, rfl, _, rfl⟩ <;>
  simp [Event.isCreation, Event.sink?, Event.isPresent, Event.isPublish, Event.isLookup,
    Event.isCreateDevice]

theorem StoredShape.site {c : CreatedDevice} {s m : DeviceResources} {t : Thrown}
    {e : List Event} (h : StoredShape c s (.error t) m e) :
    t.site = .DeviceAs ∨ t.site = .ContextAs ∨ t.site = .DxgiDeviceAs ∨
      t.site = .CreateDirect3DDevice ∨ t.site = .GetAdapter ∨ t.site = .AdapterAs := by
  rcases h with ⟨hr1, _, _, ht, _⟩ | ⟨hr1, hr2, _, _, _, ht, _⟩ |
    ⟨hr1, hr2, hr3, _, _, _, _, ht, _⟩ | ⟨hr1, hr2, hr3, hrI, _, _, _, _, ht, _⟩ |
    ⟨hr1, hr2, hr3, i, hr4, a, _, _, _, _, _, ht, _⟩ |
    ⟨hr1, hr2, hr3, i, hr4, a, hr5, _, _, _, _, _, _, ht, _⟩ |
    ⟨hr1, hr2, hr3, i, hr4, a, hr5, hr6, v, _, _, _, _, _, _, ht, _⟩ <;>
  simp_all

theorem CreatedShape.created_frame {cfg : BuildConfig} {s m : DeviceResources}
    {r : Except Thrown Unit} {e : List Event} (h : CreatedShape cfg s r m e) :
    m.m_deviceNotify = s.m_deviceNotify ∧ m.m_holographicSpace = s.m_holographicSpace ∧
    (∀ x ∈ e, x.isCreation = true ∧ x.isLookup = false) := by
  obtain ⟨r1, m1, e1, h1, h⟩ := h
  have f1 := h1.attempted_frame
  rcases h with ⟨t, _, _, rfl, rfl⟩ | ⟨c, e2, _, h2, rfl⟩
  · exact ⟨by rw [f1.1], by rw [f1.1], f1.2⟩
  · have f2 := h2.stored_frame
    refine ⟨by rw [f2.1, f1.1], by rw [f2.2.1, f1.1], fun x hx => ?_⟩
    rcases List.mem_append.mp hx with hx | hx
    · exact f1.2 x hx
    · exact ⟨(f2.2.2 x hx).1, (f2.2.2 x hx).2.1⟩

theorem InitializedShape.initialized_frame {cfg : BuildConfig} {primary : HolographicSpace → LUID}
    {s m : DeviceResources} {r : Except Thrown Unit} {e : List Event}
    (h : InitializedShape cfg primary s r m e) :
    m.m_deviceNotify = s.m_deviceNotify ∧ m.m_holographicSpace = s.m_holographicSpace ∧
    (∀ x ∈ e, x.sink? = none ∧ x.isPresent = false) := by
  have quiet : ∀ x : Event, x.isCreation = true → x.sink? = none ∧ x.isPresent = false := by
    intro x hx
    cases x <;> simp_all [Event.isCreation, Event.sink?, Event.isPresent, Event.isPublish]
  rcases h with ⟨_, _, rfl, rfl⟩ | ⟨space, r0, m0, e0, hs, h0, h⟩
  · simp
  · have f0 : m0 = { s with m_dxgiAdapter := m0.m_dxgiAdapter } ∧
        ∀ x ∈ e0, x.isCreation = true := by
      rcases h0 with ⟨_, h0⟩ | ⟨_, _, rfl, rfl⟩
      · exact ⟨h0.retrieved_frame.1, fun x hx => (h0.retrieved_frame.2 x hx).1⟩
      · simp
    rcases h with ⟨t, _, _, rfl, rfl⟩ | ⟨r1, m1, e1, _, h1, h⟩
    · exact ⟨by rw [f0.1], by rw [f0.1], fun x hx => quiet x (f0.2 x hx)⟩
    · have f1 := h1.created_frame
      rcases h with ⟨t, _, _, rfl, rfl⟩ | ⟨_, _, rfl, rfl⟩
      · refine ⟨by rw [f1.1, f0.1], by rw [f1.2.1, f0.1], fun x hx => ?_⟩
        rcases List.mem_append.mp hx with hx | hx
        · exact quiet x (f0.2 x hx)
        · exact quiet x (f1.2.2 x hx).1
      · refine ⟨by rw [f1.1, f0.1], by rw [f1.2.1, f0.1], fun x hx => ?_⟩
        rcases List.mem_append.mp hx with hx | hx
        · rcases List.mem_append.mp hx with hx | hx
          · exact quiet x (f0.2 x hx)
          · exact quiet x (f1.2.2 x hx).1
        · rw [List.mem_singleton.mp hx]
          exact ⟨rfl, rfl⟩


theorem StoredShape.stored_ok {c : CreatedDevice} {s m : DeviceResources} {e : List Event}
    (h : StoredShape c s (.ok ()) m e) :
    ∃ hr1 hr2 hr3 i hr4 a hr5 hr6 v, FAILED hr1 = false ∧ FAILED hr2 = false ∧
      FAILED hr3 = false ∧ FAILED hr4 = false ∧ FAILED hr5 = false ∧
      e = [Event.QueryInterface c.device .D3DDeviceMember hr1,
        Event.QueryInterface c.context .D3DContextMember hr2,
        Event.QueryInterface c.device .IDXGIDevice3 hr3,
        Event.CreateDirect3DDevice c.device i,
        Event.GetAdapter c.device hr4 a,
        Event.QueryInterface a .DXGIAdapterMember hr5,
        Event.CheckFeatureSupport c.device hr6 v] ∧
      m = { s with m_d3dDevice := some c.device, m_d3dContext := some c.context,
                   m_d3dInteropDevice := some i, m_dxgiAdapter := some a,
                   m_supportsVprt := v || s.m_supportsVprt } := by
  rcases h with ⟨hr1, _, _, ⟨⟩, _⟩ | ⟨hr1, hr2, _, _, _, ⟨⟩, _⟩ |
    ⟨hr1, hr2, hr3, _, _, _, _, ⟨⟩, _⟩ | ⟨hr1, hr2, hr3, hrI, _, _, _, _, ⟨⟩, _⟩ |
    ⟨hr1, hr2, hr3, i, hr4, a, _, _, _, _, _, ⟨⟩, _⟩ |
    ⟨hr1, hr2, hr3, i, hr4, a, hr5, _, _, _, _, _, _, ⟨⟩, _⟩ |
    ⟨hr1, hr2, hr3, i, hr4, a, hr5, hr6, v, h1, h2, h3, h4, h5, he, _, hm⟩
  exact ⟨hr1, hr2, hr3, i, hr4, a, hr5, hr6, v, h1, h2, h3, h4, h5, he, hm⟩

/-- The creation calls of a run whose first half returned the device `c`: the hardware call
alone, successful, or the failed hardware call followed by the successful WARP call. -/
theorem AttemptedShape.attempted_ok {cfg : BuildConfig} {s m : DeviceResources} {c : CreatedDevice}
    {e : List Event} (h : AttemptedShape cfg s (.ok c) m e) :
    ∃ probe flags hr attempts,
      ProbedFlags cfg._DEBUG D3D11_CREATE_DEVICE_BGRA_SUPPORT D3D11_CREATE_DEVICE_DEBUG probe
        flags ∧
      FAILED hr = false ∧
      (attempts = [Event.D3D11CreateDevice s.m_dxgiAdapter .HARDWARE flags featureLevels hr c] ∨
        ∃ hr0 c0, FAILED hr0 = true ∧
          attempts =
            [Event.D3D11CreateDevice s.m_dxgiAdapter .HARDWARE flags featureLevels hr0 c0,
              Event.D3D11CreateDevice none .WARP flags featureLevels hr c]) ∧
      e = probe ++ attempts ∧
      ∃ level, m = { s with m_d3dFeatureLevel := level } := by
  obtain ⟨probe, flags, hr0, c0, hp, h⟩ := h
  rcases h with ⟨h0, he, hc, rfl⟩ | ⟨hr1, c1, _, _, _, ⟨⟩, _⟩ | ⟨hr1, c1, h0, h1, he, hc, rfl⟩
  · cases hc
    exact ⟨probe, flags, hr0, _, hp, h0, Or.inl rfl, he, _, rfl⟩
  · cases hc
    exact ⟨probe, flags, hr1, _, hp, h1, Or.inr ⟨hr0, c0, h0, rfl⟩, he, _, rfl⟩

theorem ProbedFlags.sdk {enabled : Bool} {base debug : Nat} {probe : List Event}
    {flags : Nat} (h : ProbedFlags enabled base debug probe flags) :
    ∀ x ∈ probe, ∃ b, x = Event.SdkLayersAvailable b := by
  rcases h with ⟨_, rfl, _⟩ | ⟨b, _, rfl, _⟩ <;> simp

theorem RetrievedShape.retrieved_ok {cfg : BuildConfig} {id : LUID} {s m : DeviceResources}
    {e : List Event} (h : RetrievedShape cfg id s (.ok ()) m e) :
    ∃ probe flags hr1 factory hr2 hr3 adapter,
      ProbedFlags cfg.DEBUG 0 DXGI_CREATE_FACTORY_DEBUG probe flags ∧
      FAILED hr3 = false ∧
      e = probe ++ [Event.CreateDXGIFactory2 flags hr1 factory,
        Event.QueryInterface factory .IDXGIFactory4 hr2,
        Event.EnumAdapterByLuid factory id hr3 adapter] ∧
      m = { s with m_dxgiAdapter := some adapter } := by
  obtain ⟨probe, flags, hr1, factory, hp, h⟩ := h
  rcases h with ⟨_, _, ⟨⟩, _⟩ | ⟨hr2, _, _, _, ⟨⟩, _⟩ |
    ⟨hr2, hr3, adapter, _, _, _, _, ⟨⟩, _⟩ | ⟨hr2, hr3, adapter, _, _, h3, rfl, _, rfl⟩
  exact ⟨probe, flags, hr1, factory, hr2, hr3, adapter, hp, h3, rfl, rfl⟩

/-- A successful run of `InitializeUsingHolographicSpace`, call by call: the adapter step `e0`
leaves the requested adapter; after the probe, a failed hardware attempt may come; the
successful creation call returns `c`; the seven calls of the second half of
`CreateDeviceResources` follow; the publication of the interop device comes last. -/
theorem InitializedShape.initialized_ok {cfg : BuildConfig} {primary : HolographicSpace → LUID}
    {s m : DeviceResources} {e : List Event}
    (h : InitializedShape cfg primary s (.ok ()) m e) :
    ∃ space e0 requested probe flags failed adapterArg driverType hr c hr1 hr2 hr3 i hr4 a hr5
      hr6 v level,
      s.m_holographicSpace = some space ∧
      ((((primary space).HighPart ≠ 0 ∧ (primary space).LowPart ≠ 0) ∧
          ∃ probe0 flags0 hrF factory hrQ hrE adapter,
            ProbedFlags cfg.DEBUG 0 DXGI_CREATE_FACTORY_DEBUG probe0 flags0 ∧
            FAILED hrE = false ∧
            e0 = probe0 ++ [Event.CreateDXGIFactory2 flags0 hrF factory,
              Event.QueryInterface factory .IDXGIFactory4 hrQ,
              Event.EnumAdapterByLuid factory (primary space) hrE adapter] ∧
            requested = some adapter) ∨
        (¬((primary space).HighPart ≠ 0 ∧ (primary space).LowPart ≠ 0) ∧
          e0 = [] ∧ requested = none)) ∧
      ProbedFlags cfg._DEBUG D3D11_CREATE_DEVICE_BGRA_SUPPORT D3D11_CREATE_DEVICE_DEBUG probe
        flags ∧
      ((failed = [] ∧ adapterArg = requested ∧ driverType = .HARDWARE) ∨
        (∃ hr0 c0, FAILED hr0 = true ∧
          failed = [Event.D3D11CreateDevice requested .HARDWARE flags featureLevels hr0 c0] ∧
          adapterArg = none ∧ driverType = .WARP)) ∧
      FAILED hr = false ∧
      FAILED hr1 = false ∧ FAILED hr2 = false ∧ FAILED hr3 = false ∧ FAILED hr4 = false ∧
      FAILED hr5 = false ∧
      e = e0 ++ probe ++ failed ++
        [Event.D3D11CreateDevice adapterArg driverType flags featureLevels hr c,
          Event.QueryInterface c.device .D3DDeviceMember hr1,
          Event.QueryInterface c.context .D3DContextMember hr2,
          Event.QueryInterface c.device .IDXGIDevice3 hr3,
          Event.CreateDirect3DDevice c.device i,
          Event.GetAdapter c.device hr4 a,
          Event.QueryInterface a .DXGIAdapterMember hr5,
          Event.CheckFeatureSupport c.device hr6 v,
          Event.SetDirect3D11Device space (some i)] ∧
      m = { s with m_d3dDevice := some c.device, m_d3dContext := some c.context,
                   m_d3dInteropDevice := some i, m_dxgiAdapter := some a,
                   m_supportsVprt := v || s.m_supportsVprt, m_d3dFeatureLevel := level } := by
  rcases h with ⟨_, ⟨⟩, _⟩ | ⟨space, r0, m0, e0, hs, h0, h⟩
  rcases h with ⟨t, _, ⟨⟩, _⟩ | ⟨r1, m1, e1, rfl, h1, h⟩
  rcases h with ⟨t, _, ⟨⟩, _⟩ | ⟨rfl, _, rfl, rfl⟩
  obtain ⟨ra, ma, ea, hA, hS⟩ := h1
  rcases hS with ⟨t, _, ⟨⟩, _⟩ | ⟨c, e2, rfl, hS, rfl⟩
  obtain ⟨probe, flags, hr, attempts, hp, hok, hatt, rfl, level, rfl⟩ := hA.attempted_ok
  obtain ⟨hr1, hr2, hr3, i, hr4, a, hr5, hr6, v, g1, g2, g3, g4, g5, rfl, rfl⟩ := hS.stored_ok
  have key : ∃ requested, ((((primary space).HighPart ≠ 0 ∧ (primary space).LowPart ≠ 0) ∧
          ∃ probe0 flags0 hrF factory hrQ hrE adapter,
            ProbedFlags cfg.DEBUG 0 DXGI_CREATE_FACTORY_DEBUG probe0 flags0 ∧
            FAILED hrE = false ∧
            e0 = probe0 ++ [Event.CreateDXGIFactory2 flags0 hrF factory,
              Event.QueryInterface factory .IDXGIFactory4 hrQ,
              Event.EnumAdapterByLuid factory (primary space) hrE adapter] ∧
            requested = some adapter) ∨
        (¬((primary space).HighPart ≠ 0 ∧ (primary space).LowPart ≠ 0) ∧
          e0 = [] ∧ requested = none)) ∧ m0 = { s with m_dxgiAdapter := requested } := by
    rcases h0 with ⟨hc, h0⟩ | ⟨hc, _, rfl, rfl⟩
    · obtain ⟨probe0, flags0, hrF, factory, hrQ, hrE, adapter, hp0, hE, rfl, rfl⟩ := h0.retrieved_ok
      exact ⟨some adapter,
        Or.inl ⟨hc, probe0, flags0, hrF, factory, hrQ, hrE, adapter, hp0, hE, rfl, rfl⟩, rfl⟩
    · exact ⟨none, Or.inr ⟨hc, rfl, rfl⟩, rfl⟩
  obtain ⟨requested, hreq, rfl⟩ := key
  rcases hatt with rfl | ⟨hr0, c0, h0', rfl⟩
  · exact ⟨space, e0, requested, probe, flags, [], requested, .HARDWARE, hr, c, hr1, hr2, hr3, i,
      hr4, a, hr5, hr6, v, level, hs, hreq, hp, Or.inl ⟨rfl, rfl, rfl⟩, hok, g1, g2, g3, g4, g5,
      by simp, rfl⟩
  · exact ⟨space, e0, requested, probe, flags, _, none, .WARP, hr, c, hr1, hr2, hr3, i,
      hr4, a, hr5, hr6, v, level, hs, hreq, hp, Or.inr ⟨hr0, c0, h0', rfl, rfl, rfl⟩, hok, g1, g2,
      g3, g4, g5, by simp, rfl⟩

theorem InitializeUsingHolographicSpace_frame (P : Platform W) (cfg : BuildConfig)
    (s : DeviceResources) (w : W) :
    ((InitializeUsingHolographicSpace P cfg).run s w).members.m_deviceNotify = s.m_deviceNotify ∧
    ((InitializeUsingHolographicSpace P cfg).run s w).members.m_holographicSpace =
      s.m_holographicSpace ∧
    (∀ x ∈ ((InitializeUsingHolographicSpace P cfg).run s w).events,
      x.sink? = none ∧ x.isPresent = false) :=
  (InitializeUsingHolographicSpace_shape P cfg s w).initialized_frame


/-- A run of `HandleDeviceLost` with the sink `sink` registered, in terms of the callback, of the
run of `InitializeUsingHolographicSpace` that follows it, from the members and the world the
callback left, and of the second callback, made on the sink registered after that run. -/
theorem HandleDeviceLost_run_some (P : Platform W) (cfg : BuildConfig) (s : DeviceResources)
    (w : W) (sink : DeviceNotify) (h : s.m_deviceNotify = some sink) :
    (HandleDeviceLost P cfg).run s w =
      match (P.OnDeviceLost sink s w).thrown with
      | some hr =>
        ⟨.error ⟨.OnDeviceLost, hr⟩, (P.OnDeviceLost sink s w).members,
          (P.OnDeviceLost sink s w).world, [Event.OnDeviceLost sink s]⟩
      | none =>
        match ((InitializeUsingHolographicSpace P cfg).run (P.OnDeviceLost sink s w).members
          (P.OnDeviceLost sink s w).world).result with
        | .error t =>
          ⟨.error t,
            ((InitializeUsingHolographicSpace P cfg).run (P.OnDeviceLost sink s w).members
              (P.OnDeviceLost sink s w).world).members,
            ((InitializeUsingHolographicSpace P cfg).run (P.OnDeviceLost sink s w).members
              (P.OnDeviceLost sink s w).world).world,
            Event.OnDeviceLost sink s ::
              ((InitializeUsingHolographicSpace P cfg).run (P.OnDeviceLost sink s w).members
                (P.OnDeviceLost sink s w).world).events⟩
        | .ok _ =>
          match ((InitializeUsingHolographicSpace P cfg).run (P.OnDeviceLost sink s w).members
            (P.OnDeviceLost sink s w).world).members.m_deviceNotify with
          | none =>
            ⟨.ok (),
              ((InitializeUsingHolographicSpace P cfg).run (P.OnDeviceLost sink s w).members
                (P.OnDeviceLost sink s w).world).members,
              ((InitializeUsingHolographicSpace P cfg).run (P.OnDeviceLost sink s w).members
                (P.OnDeviceLost sink s w).world).world,
              Event.OnDeviceLost sink s ::
                ((InitializeUsingHolographicSpace P cfg).run (P.OnDeviceLost sink s w).members
                  (P.OnDeviceLost sink s w).world).events⟩
          | some later =>
            ⟨match (P.OnDeviceRestored later
                ((InitializeUsingHolographicSpace P cfg).run (P.OnDeviceLost sink s w).members
                  (P.OnDeviceLost sink s w).world).members
                ((InitializeUsingHolographicSpace P cfg).run (P.OnDeviceLost sink s w).members
                  (P.OnDeviceLost sink s w).world).world).thrown with
              | none => .ok ()
              | some hr => .error ⟨.OnDeviceRestored, hr⟩,
              (P.OnDeviceRestored later
                ((InitializeUsingHolographicSpace P cfg).run (P.OnDeviceLost sink s w).members
                  (P.OnDeviceLost sink s w).world).members
                ((InitializeUsingHolographicSpace P cfg).run (P.OnDeviceLost sink s w).members
                  (P.OnDeviceLost sink s w).world).world).members,
              (P.OnDeviceRestored later
                ((InitializeUsingHolographicSpace P cfg).run (P.OnDeviceLost sink s w).members
                  (P.OnDeviceLost sink s w).world).members
                ((InitializeUsingHolographicSpace P cfg).run (P.OnDeviceLost sink s w).members
                  (P.OnDeviceLost sink s w).world).world).world,
              Event.OnDeviceLost sink s ::
                ((InitializeUsingHolographicSpace P cfg).run (P.OnDeviceLost sink s w).members
                  (P.OnDeviceLost sink s w).world).events ++
                [Event.OnDeviceRestored later
                  ((InitializeUsingHolographicSpace P cfg).run (P.OnDeviceLost sink s w).members
                    (P.OnDeviceLost sink s w).world).members]⟩ := by
  refine (wp_iff (HandleDeviceLost P cfg) s w (fun o => o = _)).mp ?_
  unfold HandleDeviceLost
  simp only [wp_bind, wp_members, h, wp_callback, wp_pure,
    wp_iff (InitializeUsingHolographicSpace P cfg)]
  generalize P.OnDeviceLost sink s w = L
  obtain ⟨Lt, Lm, Lw⟩ := L
  dsimp only
  generalize (InitializeUsingHolographicSpace P cfg).run Lm Lw = r
  obtain ⟨rr, rm, rw', re⟩ := r
  refine ⟨?_, ?_⟩
  · rintro hr rfl
    rfl
  · rintro rfl
    dsimp only
    cases rr with
    | error t => simp
    | ok u =>
      dsimp only
      cases hn : rm.m_deviceNotify with
      | none =>
        dsimp only
        rw [wp_pure]
        simp
      | some later =>
        dsimp only
        rw [wp_callback]
        generalize P.OnDeviceRestored later rm rw' = R
        obtain ⟨Rt, Rm, Rw⟩ := R
        cases Rt <;> simp

/-- A run of `HandleDeviceLost` with no sink registered is the run of
`InitializeUsingHolographicSpace`. -/
theorem HandleDeviceLost_run_none (P : Platform W) (cfg : BuildConfig) (s : DeviceResources)
    (w : W) (h : s.m_deviceNotify = none) :
    (HandleDeviceLost P cfg).run s w = (InitializeUsingHolographicSpace P cfg).run s w := by
  have hf := (InitializeUsingHolographicSpace_frame P cfg s w).1
  rw [h] at hf
  refine (wp_iff (HandleDeviceLost P cfg) s w (fun o => o = _)).mp ?_
  unfold HandleDeviceLost
  simp only [wp_bind, wp_members, h, wp_pure,
    wp_iff (InitializeUsingHolographicSpace P cfg)]
  generalize (InitializeUsingHolographicSpace P cfg).run s w = r at hf ⊢
  obtain ⟨rr, rm, rw', re⟩ := r
  cases rr with
  | error t => simp
  | ok u =>
    dsimp only at hf ⊢
    simp only [hf, wp_pure]
    simp

/-- A run of `HandleDeviceLost` presents nothing. -/
theorem HandleDeviceLost_quiet (P : Platform W) (cfg : BuildConfig) (s : DeviceResources)
    (w : W) : ∀ x ∈ ((HandleDeviceLost P cfg).run s w).events, x.isPresent = false := by
  cases h : s.m_deviceNotify with
  | none =>
    rw [HandleDeviceLost_run_none P cfg s w h]
    exact fun x hx => ((InitializeUsingHolographicSpace_frame P cfg s w).2.2 x hx).2
  | some sink =>
    rw [HandleDeviceLost_run_some P cfg s w sink h]
    generalize P.OnDeviceLost sink s w = L
    obtain ⟨Lt, Lm, Lw⟩ := L
    have hf := InitializeUsingHolographicSpace_frame P cfg Lm Lw
    dsimp only
    generalize (InitializeUsingHolographicSpace P cfg).run Lm Lw = r at hf ⊢
    obtain ⟨rr, rm, rw', re⟩ := r
    have hq : ∀ x ∈ re, x.isPresent = false := fun x hx => (hf.2.2 x hx).2
    cases Lt with
    | some hr => simp [Event.isPresent]
    | none =>
      cases rr with
      | error t => simpa [Event.isPresent] using hq
      | ok u =>
        dsimp only
        cases hn : rm.m_deviceNotify with
        | none => simpa [Event.isPresent] using hq
        | some later =>
          dsimp only
          simp only [List.cons_append, List.forall_mem_cons, List.forall_mem_append]
          exact ⟨rfl, hq, by simp [Event.isPresent]⟩

/-- A run of `Present`, in terms of the run of `HandleDeviceLost` it may contain. -/
theorem Present_run (P : Platform W) (cfg : BuildConfig) (frame : HolographicFrame)
    (s : DeviceResources) (w : W) :
    (Present P cfg frame).run s w =
      if (P.PresentUsingCurrentPrediction frame w).1 = .DeviceRemoved then
        { (HandleDeviceLost P cfg).run s (P.PresentUsingCurrentPrediction frame w).2 with
          events :=
            Event.PresentUsingCurrentPrediction frame (P.PresentUsingCurrentPrediction frame w).1 ::
              ((HandleDeviceLost P cfg).run s (P.PresentUsingCurrentPrediction frame w).2).events }
      else
        ⟨.ok (), s, (P.PresentUsingCurrentPrediction frame w).2,
          [Event.PresentUsingCurrentPrediction frame (P.PresentUsingCurrentPrediction frame w).1]⟩ := by
  refine (wp_iff (Present P cfg frame) s w (fun o => o = _)).mp ?_
  unfold Present
  simp only [wp_bind, wp_invoke, wp_ite, wp_pure, wp_iff (HandleDeviceLost P cfg)]
  refine ⟨fun h => ?_, fun h => ?_⟩
  · rw [if_pos h]
    generalize (HandleDeviceLost P cfg).run s (P.PresentUsingCurrentPrediction frame w).2 = r
    obtain ⟨rr, rm, rw', re⟩ := r
    cases rr <;> simp
  · rw [if_neg h]
    simp

theorem filter_isCreateDevice_eq_nil {l : List Event}
    (h : ∀ x ∈ l, x.isCreateDevice = false) : l.filter Event.isCreateDevice = [] := by
  rw [List.filter_eq_nil_iff]
  intro x hx
  simp [h x hx]

/-- The creation calls of a run of `CreateDeviceResources`, whatever its outcome, and the site of
the exception when it throws. -/
theorem CreatedShape.attempts {cfg : BuildConfig} {s m : DeviceResources}
    {r : Except Thrown Unit} {e : List Event} (h : CreatedShape cfg s r m e) :
    ∃ flags hr0 c0,
      (FAILED hr0 = false ∧
        e.filter Event.isCreateDevice =
          [Event.D3D11CreateDevice s.m_dxgiAdapter .HARDWARE flags featureLevels hr0 c0] ∧
        ∀ t, r = .error t → t.site.failure ≠ some .DeviceCreationFailure) ∨
      (FAILED hr0 = true ∧ ∃ hr1 c1,
        e.filter Event.isCreateDevice =
          [Event.D3D11CreateDevice s.m_dxgiAdapter .HARDWARE flags featureLevels hr0 c0,
            Event.D3D11CreateDevice none .WARP flags featureLevels hr1 c1] ∧
        (FAILED hr1 = true → r = .error ⟨.D3D11CreateDeviceWarp, hr1⟩) ∧
        (FAILED hr1 = false → ∀ t, r = .error t → t.site.failure ≠ some .DeviceCreationFailure)) := by
  obtain ⟨r1, m1, e1, ⟨probe, flags, hr0, c0, hp, hA⟩, hS⟩ := h
  have hq : probe.filter Event.isCreateDevice = [] :=
    filter_isCreateDevice_eq_nil fun x hx => (hp.isCreation x hx).2.1
  have stored : ∀ {c : CreatedDevice} {s' : DeviceResources} {e2 : List Event},
      StoredShape c s' r m e2 →
        e2.filter Event.isCreateDevice = [] ∧
        ∀ t, r = .error t → t.site.failure ≠ some .DeviceCreationFailure := by
    intro c s' e2 h2
    refine ⟨filter_isCreateDevice_eq_nil fun x hx => (h2.stored_frame.2.2 x hx).2.2, ?_⟩
    rintro t rfl
    rcases h2.site with h | h | h | h | h | h <;> simp [h, Site.failure]
  refine ⟨flags, hr0, c0, ?_⟩
  rcases hA with ⟨h0, rfl, rfl, rfl⟩ | ⟨hr1, c1, h0, h1, rfl, rfl, rfl⟩ |
    ⟨hr1, c1, h0, h1, rfl, rfl, rfl⟩
  · rcases hS with ⟨t, ⟨⟩, _⟩ | ⟨c, e2, hc, h2, rfl⟩
    cases hc
    refine Or.inl ⟨h0, ?_, (stored h2).2⟩
    simp [List.filter_append, hq, (stored h2).1, Event.isCreateDevice]
  · rcases hS with ⟨t, ht, rfl, _, rfl⟩ | ⟨c, e2, ⟨⟩, _⟩
    cases ht
    refine Or.inr ⟨h0, hr1, c1, ?_, fun _ => rfl, fun h => ?_⟩
    · simp [List.filter_append, hq, Event.isCreateDevice]
    · rw [h1] at h
      cases h
  · rcases hS with ⟨t, ⟨⟩, _⟩ | ⟨c, e2, hc, h2, rfl⟩
    cases hc
    refine Or.inr ⟨h0, hr1, c1, ?_, fun h => ?_, fun _ => (stored h2).2⟩
    · simp [List.filter_append, hq, (stored h2).1, Event.isCreateDevice]
    · rw [h1] at h
      cases h

/-- Where a run of `StoreDevice` on `c` that threw stands: the optional-feature flag is untouched,
and the device, the context and the interop device are replaced up to the statement that threw. -/
theorem StoredShape.stored_thrown {c : CreatedDevice} {s m : DeviceResources} {t : Thrown}
    {e : List Event} (h : StoredShape c s (.error t) m e) :
    m.m_supportsVprt = s.m_supportsVprt ∧
    ((t.site = .DeviceAs ∧ m.m_d3dDevice = none ∧ m.m_d3dContext = s.m_d3dContext ∧
        m.m_d3dInteropDevice = s.m_d3dInteropDevice) ∨
      (t.site = .ContextAs ∧ m.m_d3dDevice = some c.device ∧ m.m_d3dContext = none ∧
        m.m_d3dInteropDevice = s.m_d3dInteropDevice) ∨
      ((t.site = .DxgiDeviceAs ∨ t.site = .CreateDirect3DDevice) ∧
        m.m_d3dDevice = some c.device ∧ m.m_d3dContext = some c.context ∧
        m.m_d3dInteropDevice = s.m_d3dInteropDevice) ∨
      ((t.site = .GetAdapter ∨ t.site = .AdapterAs) ∧ m.m_d3dDevice = some c.device ∧
        m.m_d3dContext = some c.context ∧
        ∃ i, Event.CreateDirect3DDevice c.device i ∈ e ∧ m.m_d3dInteropDevice = some i)) := by
  rcases h with ⟨hr1, _, _, ht, rfl⟩ | ⟨hr1, hr2, _, _, _, ht, rfl⟩ |
    ⟨hr1, hr2, hr3, _, _, _, _, ht, rfl⟩ | ⟨hr1, hr2, hr3, hrI, _, _, _, _, ht, rfl⟩ |
    ⟨hr1, hr2, hr3, i, hr4, a, _, _, _, _, rfl, ht, rfl⟩ |
    ⟨hr1, hr2, hr3, i, hr4, a, hr5, _, _, _, _, _, rfl, ht, rfl⟩ |
    ⟨hr1, hr2, hr3, i, hr4, a, hr5, hr6, v, _, _, _, _, _, _, ht, _⟩ <;>
  cases ht <;> simp

/-- Where a run of `InitializeUsingHolographicSpace` that threw stands.  Thrown before the second
half of `CreateDeviceResources`, it leaves the device, the context, the interop device and the
optional-feature flag as they were.  Thrown later, a device `c` has been created by a successful
call of this run and the three handles are replaced up to the statement that threw; the flag is
as it was unless the throw is that of the publication. -/
theorem InitializedShape.initialized_thrown {cfg : BuildConfig}
    {primary : HolographicSpace → LUID} {s m : DeviceResources} {t : Thrown} {e : List Event}
    (h : InitializedShape cfg primary s (.error t) m e) :
    ((t.site = .NullHolographicSpace ∨ t.site = .CreateDXGIFactory2 ∨ t.site = .FactoryAs ∨
          t.site = .EnumAdapterByLuid ∨ t.site = .D3D11CreateDeviceWarp) ∧
        m.m_d3dDevice = s.m_d3dDevice ∧ m.m_d3dContext = s.m_d3dContext ∧
        m.m_d3dInteropDevice = s.m_d3dInteropDevice ∧ m.m_supportsVprt = s.m_supportsVprt) ∨
    (∃ adapterArg driverType flags hr c, FAILED hr = false ∧
        Event.D3D11CreateDevice adapterArg driverType flags featureLevels hr c ∈ e ∧
        ((t.site = .DeviceAs ∧ m.m_d3dDevice = none ∧ m.m_d3dContext = s.m_d3dContext ∧
            m.m_d3dInteropDevice = s.m_d3dInteropDevice ∧
            m.m_supportsVprt = s.m_supportsVprt) ∨
          (t.site = .ContextAs ∧ m.m_d3dDevice = some c.device ∧ m.m_d3dContext = none ∧
            m.m_d3dInteropDevice = s.m_d3dInteropDevice ∧
            m.m_supportsVprt = s.m_supportsVprt) ∨
          ((t.site = .DxgiDeviceAs ∨ t.site = .CreateDirect3DDevice) ∧
            m.m_d3dDevice = some c.device ∧ m.m_d3dContext = some c.context ∧
            m.m_d3dInteropDevice = s.m_d3dInteropDevice ∧
            m.m_supportsVprt = s.m_supportsVprt) ∨
          ((t.site = .GetAdapter ∨ t.site = .AdapterAs) ∧ m.m_d3dDevice = some c.device ∧
            m.m_d3dContext = some c.context ∧
            (∃ i, Event.CreateDirect3DDevice c.device i ∈ e ∧ m.m_d3dInteropDevice = some i) ∧
            m.m_supportsVprt = s.m_supportsVprt) ∨
          (t.site = .SetDirect3D11Device ∧ m.m_d3dDevice = some c.device ∧
            m.m_d3dContext = some c.context ∧
            ∃ i, Event.CreateDirect3DDevice c.device i ∈ e ∧ m.m_d3dInteropDevice = some i))) := by
  rcases h with ⟨_, ht, rfl, _⟩ | ⟨space, r0, m0, e0, hs, h0, h⟩
  · cases ht
    exact Or.inl ⟨Or.inl rfl, rfl, rfl, rfl, rfl⟩
  · rcases h with ⟨t', rfl, ht, rfl, rfl⟩ | ⟨r1, m1, e1, rfl, h1, h⟩
    · cases ht
      rcases h0 with ⟨_, h0⟩ | ⟨_, ⟨⟩, _⟩
      have hm := h0.retrieved_frame.1
      obtain ⟨probe, flags, hr1, factory, hp, h0⟩ := h0
      rcases h0 with ⟨_, _, ht, _⟩ | ⟨hr2, _, _, _, ht, _⟩ |
        ⟨hr2, hr3, adapter, _, _, _, _, ht, _⟩ | ⟨hr2, hr3, adapter, _, _, _, _, ⟨⟩, _⟩ <;>
      · cases ht
        refine Or.inl ⟨by simp, ?_, ?_, ?_, ?_⟩ <;> rw [hm]
    · have hm0 : m0 = { s with m_dxgiAdapter := m0.m_dxgiAdapter } := by
        rcases h0 with ⟨_, h0⟩ | ⟨_, _, rfl, _⟩
        · exact h0.retrieved_frame.1
        · rfl
      rcases h with ⟨t', rfl, ht, rfl, rfl⟩ | ⟨rfl, hres, rfl, rfl⟩
      · cases ht
        obtain ⟨ra, ma, ea, hA, hS⟩ := h1
        rcases hS with ⟨t', rfl, ht, rfl, rfl⟩ | ⟨c, e2, rfl, hS, rfl⟩
        · cases ht
          have hma := hA.attempted_frame.1
          obtain ⟨probe, flags, hr0, c0, hp, hA⟩ := hA
          rcases hA with ⟨_, _, ⟨⟩, _⟩ | ⟨hr1, c1, _, _, _, ht, _⟩ | ⟨hr1, c1, _, _, _, ⟨⟩, _⟩
          cases ht
          refine Or.inl ⟨by simp, ?_, ?_, ?_, ?_⟩ <;> rw [hma, hm0]
        · obtain ⟨probe, flags, hr, attempts, hp, hok, hatt, rfl, level, rfl⟩ := hA.attempted_ok
          have hmem : ∃ adapterArg driverType,
              Event.D3D11CreateDevice adapterArg driverType flags featureLevels hr c ∈
                attempts := by
            rcases hatt with rfl | ⟨hr0, c0, _, rfl⟩
            · exact ⟨_, _, List.mem_singleton.mpr rfl⟩
            · exact ⟨none, .WARP, by simp⟩
          obtain ⟨adapterArg, driverType, hmem⟩ := hmem
          have hT := hS.stored_thrown
          have hflag : m.m_supportsVprt = s.m_supportsVprt := by rw [hT.1, hm0]
          refine Or.inr ⟨adapterArg, driverType, flags, hr, c, hok, by simp [hmem], ?_⟩
          rcases hT.2 with ⟨g, g1, g2, g3⟩ | ⟨g, g1, g2, g3⟩ | ⟨g, g1, g2, g3⟩ |
            ⟨g, g1, g2, i, gi, g3⟩
          · exact Or.inl ⟨g, g1, by rw [g2, hm0], by rw [g3, hm0], hflag⟩
          · exact Or.inr (Or.inl ⟨g, g1, g2, by rw [g3, hm0], hflag⟩)
          · exact Or.inr (Or.inr (Or.inl ⟨g, g1, g2, by rw [g3, hm0], hflag⟩))
          · exact Or.inr (Or.inr (Or.inr (Or.inl ⟨g, g1, g2, ⟨i, by simp [gi], g3⟩, hflag⟩)))
      · rcases hres with hres | ⟨hrP, ht⟩
        · cases hres
        cases ht
        have hok : InitializedShape cfg primary s (.ok ()) m
            (e0 ++ e1 ++ [Event.SetDirect3D11Device space m.m_d3dInteropDevice]) :=
          Or.inr ⟨space, _, _, _, hs, h0, Or.inr ⟨_, _, _, rfl, h1, Or.inr
            ⟨rfl, Or.inl rfl, rfl, rfl⟩⟩⟩
        obtain ⟨space', e0', requested, probe, flags, failed, adapterArg, driverType, hr, c, hr1,
          hr2, hr3, i, hr4, a, hr5, hr6, v, level, hs', hreq, hp, hfailed, hok', g1, g2, g3, g4,
          g5, he, hm⟩ := hok.initialized_ok
        rw [he]
        refine Or.inr ⟨adapterArg, driverType, flags, hr, c, hok', by simp, ?_⟩
        refine Or.inr (Or.inr (Or.inr (Or.inr ⟨rfl, ?_, ?_, i, by simp, ?_⟩))) <;> rw [hm]

/-- C3: `CreateDeviceResources` attempts the hardware device first, on the cached adapter, with the
feature levels 12.1, 12.0, 11.1, 11.0, 10.1, 10.0 in that order.  If that attempt succeeds it is
the only creation attempt and the run does not end in `DeviceCreationFailure`.  If it fails,
exactly one more attempt is made: the WARP (software) driver, no adapter, the same flags and the
same feature levels; the run ends in `DeviceCreationFailure` exactly when that second attempt fails
too.  There is never a third attempt. -/
theorem CreateDeviceResources_falls_back_to_software (P : Platform W) (cfg : BuildConfig)
    (s : DeviceResources) (w : W) :
    featureLevels =
      [.LEVEL_12_1, .LEVEL_12_0, .LEVEL_11_1, .LEVEL_11_0, .LEVEL_10_1, .LEVEL_10_0] ∧
    ∃ flags hr0 c0,
      (FAILED hr0 = false ∧
        ((CreateDeviceResources P cfg).run s w).events.filter Event.isCreateDevice =
          [Event.D3D11CreateDevice s.m_dxgiAdapter .HARDWARE flags featureLevels hr0 c0] ∧
        ((CreateDeviceResources P cfg).run s w).failure ≠ some .DeviceCreationFailure) ∨
      (FAILED hr0 = true ∧ ∃ hr1 c1,
        ((CreateDeviceResources P cfg).run s w).events.filter Event.isCreateDevice =
          [Event.D3D11CreateDevice s.m_dxgiAdapter .HARDWARE flags featureLevels hr0 c0,
            Event.D3D11CreateDevice none .WARP flags featureLevels hr1 c1] ∧
        (((CreateDeviceResources P cfg).run s w).failure = some .DeviceCreationFailure ↔
          FAILED hr1 = true)) := by
  refine ⟨rfl, ?_⟩
  obtain ⟨flags, hr0, c0, h⟩ := (CreateDeviceResources_shape P cfg s w).attempts
  refine ⟨flags, hr0, c0, ?_⟩
  generalize (CreateDeviceResources P cfg).run s w = o at h ⊢
  obtain ⟨r, m, w', e⟩ := o
  rcases h with ⟨h0, he, hr⟩ | ⟨h0, hr1, c1, he, hfail, hok⟩
  · refine Or.inl ⟨h0, he, ?_⟩
    cases r with
    | ok u => simp [Outcome.failure]
    | error t => simpa [Outcome.failure] using hr t rfl
  · refine Or.inr ⟨h0, hr1, c1, he, ?_⟩
    cases h1 : FAILED hr1 with
    | true =>
      have := hfail h1
      dsimp only at this
      subst this
      simp [Outcome.failure, Site.failure]
    | false =>
      cases r with
      | ok u => simp [Outcome.failure]
      | error t => simpa [Outcome.failure] using hok h1 t rfl

/-- C4: after every successful `InitializeUsingHolographicSpace`, from any members, the calls end
with the successful creation call (returning `c`), the calls that store and wrap the device, the
query `GetAdapter` on that same device (returning `a`), and the publication; the cached adapter
is `a` and the stored device is `c.device`.  When both parts of the identifier are zero, no
lookup is made and every hardware attempt is given no adapter (the cache was cleared before
creation), yet the cache holds `a` afterwards.  When the successful call is the WARP one, it
follows a failed hardware attempt and the cache still holds the adapter reported by the WARP
device. -/
theorem InitializeUsingHolographicSpace_caches_reported_adapter (P : Platform W)
    (cfg : BuildConfig) (s : DeviceResources) (w : W)
    (h : ((InitializeUsingHolographicSpace P cfg).run s w).result = .ok ()) :
    ∃ space before adapterArg driverType flags hr c hr1 hr2 hr3 i hrA a hr5 hr6 v,
      s.m_holographicSpace = some space ∧
      ((InitializeUsingHolographicSpace P cfg).run s w).events =
        before ++
          [Event.D3D11CreateDevice adapterArg driverType flags featureLevels hr c,
            Event.QueryInterface c.device .D3DDeviceMember hr1,
            Event.QueryInterface c.context .D3DContextMember hr2,
            Event.QueryInterface c.device .IDXGIDevice3 hr3,
            Event.CreateDirect3DDevice c.device i,
            Event.GetAdapter c.device hrA a,
            Event.QueryInterface a .DXGIAdapterMember hr5,
            Event.CheckFeatureSupport c.device hr6 v,
            Event.SetDirect3D11Device space (some i)] ∧
      FAILED hr = false ∧ FAILED hrA = false ∧
      ((InitializeUsingHolographicSpace P cfg).run s w).members.m_d3dDevice = some c.device ∧
      ((InitializeUsingHolographicSpace P cfg).run s w).members.m_dxgiAdapter = some a ∧
      (∀ x ∈ before, x.isCreateDevice = true →
        driverType = .WARP ∧ ∃ requested hr0 c0, FAILED hr0 = true ∧
          x = Event.D3D11CreateDevice requested .HARDWARE flags featureLevels hr0 c0) ∧
      (driverType = .WARP →
        adapterArg = none ∧ ∃ x ∈ before, x.isCreateDevice = true) ∧
      ((P.PrimaryAdapterId space w).LowPart = 0 ∧ (P.PrimaryAdapterId space w).HighPart = 0 →
        (∀ x ∈ before, x.isLookup = false) ∧
        ∀ adapter flags' levels hr' c',
          Event.D3D11CreateDevice adapter .HARDWARE flags' levels hr' c' ∈
            ((InitializeUsingHolographicSpace P cfg).run s w).events → adapter = none) := by
  have hshape := InitializeUsingHolographicSpace_shape P cfg s w
  rw [h] at hshape
  obtain ⟨space, e0, requested, probe, flags, failed, adapterArg, driverType, hr, c, hr1, hr2,
    hr3, i, hr4, a, hr5, hr6, v, level, hs, hreq, hp, hfailed, hok, g1, g2, g3, g4, g5, he, hm⟩ :=
    hshape.initialized_ok
  have hprobe := hp.sdk
  have he0 : ∀ x ∈ e0, x.isCreateDevice = false := by
    rcases hreq with ⟨_, probe0, flags0, hrF, factory, hrQ, hrE, adapter, hp0, _, rfl, _⟩ |
      ⟨_, rfl, _⟩
    · have := hp0.isCreation
      rw [List.forall_mem_append]
      exact ⟨fun x hx => (this x hx).2.1, by simp [Event.isCreateDevice]⟩
    · simp
  refine ⟨space, e0 ++ probe ++ failed, adapterArg, driverType, flags, hr, c, hr1, hr2, hr3, i,
    hr4, a, hr5, hr6, v, hs, he, hok, g4, by rw [hm], by rw [hm], ?_, ?_, ?_⟩
  · intro x hx hcreate
    rcases List.mem_append.mp hx with hx | hx
    · rcases List.mem_append.mp hx with hx | hx
      · rw [he0 x hx] at hcreate
        cases hcreate
      · rw [(hp.isCreation x hx).2.1] at hcreate
        cases hcreate
    · rcases hfailed with ⟨rfl, _, _⟩ | ⟨hr0, c0, h0, rfl, _, rfl⟩
      · cases hx
      · exact ⟨rfl, requested, hr0, c0, h0, List.mem_singleton.mp hx⟩
  · rintro rfl
    rcases hfailed with ⟨_, _, ⟨⟩⟩ | ⟨hr0, c0, h0, rfl, rfl, _⟩
    exact ⟨rfl, _, List.mem_append_right _ (List.mem_singleton.mpr rfl), rfl⟩
  · rintro ⟨hlow, hhigh⟩
    rcases hreq with ⟨⟨_, hne⟩, _⟩ | ⟨_, rfl, rfl⟩
    · exact absurd hlow hne
    · refine ⟨?_, ?_⟩
      · intro x hx
        simp only [List.nil_append, List.mem_append] at hx
        rcases hx with hx | hx
        · exact (hp.isCreation x hx).2.2
        · rcases hfailed with ⟨rfl, _, _⟩ | ⟨hr0, c0, h0, rfl, _, rfl⟩
          · cases hx
          · rw [List.mem_singleton.mp hx]
            rfl
      · intro adapter flags' levels hr' c' hmem
        rw [he] at hmem
        simp only [List.nil_append, List.mem_append] at hmem
        rcases hmem with (hmem | hmem) | hmem
        · obtain ⟨b, hb⟩ := hprobe _ hmem
          cases hb
        · rcases hfailed with ⟨rfl, _, _⟩ | ⟨hr0, c0, h0, rfl, _, rfl⟩
          · cases hmem
          · cases List.mem_singleton.mp hmem
            rfl
        · rcases hfailed with ⟨_, rfl, rfl⟩ | ⟨hr0, c0, h0, _, rfl, rfl⟩
          · simp at hmem
            exact hmem.1
          · simp at hmem

/-- C5: after every successful `InitializeUsingHolographicSpace`, first initialization or
recreation, the stored device is the one returned by the successful creation call of this run,
the stored interop device is the result of the one `CreateDirect3DDevice` call of this run, made
on that device, and the one `SetDirect3D11Device` call of this run, the last call, passes that
same interop device. -/
theorem InitializeUsingHolographicSpace_interop_wraps_new_device (P : Platform W)
    (cfg : BuildConfig) (s : DeviceResources) (w : W)
    (h : ((InitializeUsingHolographicSpace P cfg).run s w).result = .ok ()) :
    ∃ space before adapterArg driverType flags hr c hr1 hr2 hr3 i hrA a hr5 hr6 v,
      s.m_holographicSpace = some space ∧
      ((InitializeUsingHolographicSpace P cfg).run s w).events =
        before ++
          [Event.D3D11CreateDevice adapterArg driverType flags featureLevels hr c,
            Event.QueryInterface c.device .D3DDeviceMember hr1,
            Event.QueryInterface c.context .D3DContextMember hr2,
            Event.QueryInterface c.device .IDXGIDevice3 hr3,
            Event.CreateDirect3DDevice c.device i,
            Event.GetAdapter c.device hrA a,
            Event.QueryInterface a .DXGIAdapterMember hr5,
            Event.CheckFeatureSupport c.device hr6 v,
            Event.SetDirect3D11Device space (some i)] ∧
      FAILED hr = false ∧
      (∀ x ∈ before, x.isPublish = false ∧ (∀ d j, x ≠ Event.CreateDirect3DDevice d j) ∧
        (x.isCreateDevice = true → ∃ requested hr0 c0, FAILED hr0 = true ∧
          x = Event.D3D11CreateDevice requested .HARDWARE flags featureLevels hr0 c0)) ∧
      ((InitializeUsingHolographicSpace P cfg).run s w).members.m_d3dDevice = some c.device ∧
      ((InitializeUsingHolographicSpace P cfg).run s w).members.m_d3dContext = some c.context ∧
      ((InitializeUsingHolographicSpace P cfg).run s w).members.m_d3dInteropDevice = some i := by
  have hshape := InitializeUsingHolographicSpace_shape P cfg s w
  rw [h] at hshape
  obtain ⟨space, e0, requested, probe, flags, failed, adapterArg, driverType, hr, c, hr1, hr2,
    hr3, i, hr4, a, hr5, hr6, v, level, hs, hreq, hp, hfailed, hok, g1, g2, g3, g4, g5, he, hm⟩ :=
    hshape.initialized_ok
  refine ⟨space, e0 ++ probe ++ failed, adapterArg, driverType, flags, hr, c, hr1, hr2, hr3, i,
    hr4, a, hr5, hr6, v, hs, he, hok, ?_, by rw [hm], by rw [hm], by rw [hm]⟩
  have sdk : ∀ probe' : List Event, (∀ x ∈ probe', ∃ b, x = Event.SdkLayersAvailable b) →
      ∀ x ∈ probe', x.isPublish = false ∧ (∀ d j, x ≠ Event.CreateDirect3DDevice d j) ∧
        (x.isCreateDevice = true → ∃ requested hr0 c0, FAILED hr0 = true ∧
          x = Event.D3D11CreateDevice requested .HARDWARE flags featureLevels hr0 c0) := by
    intro probe' hsdk x hx
    obtain ⟨b, rfl⟩ := hsdk x hx
    simp [Event.isPublish, Event.isCreateDevice]
  simp only [List.forall_mem_append]
  refine ⟨⟨?_, sdk probe hp.sdk⟩, ?_⟩
  · rcases hreq with ⟨_, probe0, flags0, hrF, factory, hrQ, hrE, adapter, hp0, _, rfl, _⟩ |
      ⟨_, rfl, _⟩
    · rw [List.forall_mem_append]
      exact ⟨sdk probe0 hp0.sdk, by simp [Event.isPublish, Event.isCreateDevice]⟩
    · simp
  · rcases hfailed with ⟨rfl, _, _⟩ | ⟨hr0, c0, h0, rfl, _, _⟩
    · simp
    · simp only [List.forall_mem_cons, List.not_mem_nil, false_implies, implies_true, and_true]
      exact ⟨rfl, by simp, fun _ => ⟨requested, hr0, c0, h0, rfl⟩⟩

/-- C6, amended: with a sink registered, `HandleDeviceLost` first calls `OnDeviceLost` on that
sink, with the members it started from, before any other call.  If the callback throws, nothing
else is called and the exception propagates.  If it returns, `InitializeUsingHolographicSpace`
runs from the members the callback left and makes no callback.  If that run throws, the exception
propagates and `OnDeviceRestored` is not called.  If it returns, the new device, context and
interop device are stored and the publication was its last call; then `OnDeviceRestored` is
called once, as the last call, on the sink the `OnDeviceLost` callback left registered, and not at
all if it left none registered. -/
theorem HandleDeviceLost_notifies_registered_sink (P : Platform W) (cfg : BuildConfig)
    (s : DeviceResources) (w : W) (sink : DeviceNotify) (h : s.m_deviceNotify = some sink) :
    (∀ hr, (P.OnDeviceLost sink s w).thrown = some hr →
      ((HandleDeviceLost P cfg).run s w).result = .error ⟨.OnDeviceLost, hr⟩ ∧
      ((HandleDeviceLost P cfg).run s w).events = [Event.OnDeviceLost sink s]) ∧
    ((P.OnDeviceLost sink s w).thrown = none →
      (∀ x ∈ ((InitializeUsingHolographicSpace P cfg).run (P.OnDeviceLost sink s w).members
          (P.OnDeviceLost sink s w).world).events, x.sink? = none) ∧
      (∀ t,
        ((InitializeUsingHolographicSpace P cfg).run (P.OnDeviceLost sink s w).members
          (P.OnDeviceLost sink s w).world).result = .error t →
        ((HandleDeviceLost P cfg).run s w).result = .error t ∧
        ((HandleDeviceLost P cfg).run s w).events =
          Event.OnDeviceLost sink s ::
            ((InitializeUsingHolographicSpace P cfg).run (P.OnDeviceLost sink s w).members
              (P.OnDeviceLost sink s w).world).events) ∧
      (((InitializeUsingHolographicSpace P cfg).run (P.OnDeviceLost sink s w).members
          (P.OnDeviceLost sink s w).world).result = .ok () →
        ∃ space before c i,
          ((InitializeUsingHolographicSpace P cfg).run (P.OnDeviceLost sink s w).members
            (P.OnDeviceLost sink s w).world).events =
            before ++ [Event.SetDirect3D11Device space (some i)] ∧
          (∃ adapterArg driverType flags hr, FAILED hr = false ∧
            Event.D3D11CreateDevice adapterArg driverType flags featureLevels hr c ∈ before) ∧
          Event.CreateDirect3DDevice c.device i ∈ before ∧
          ((InitializeUsingHolographicSpace P cfg).run (P.OnDeviceLost sink s w).members
            (P.OnDeviceLost sink s w).world).members.m_d3dDevice = some c.device ∧
          ((InitializeUsingHolographicSpace P cfg).run (P.OnDeviceLost sink s w).members
            (P.OnDeviceLost sink s w).world).members.m_d3dContext = some c.context ∧
          ((InitializeUsingHolographicSpace P cfg).run (P.OnDeviceLost sink s w).members
            (P.OnDeviceLost sink s w).world).members.m_d3dInteropDevice = some i ∧
          ((P.OnDeviceLost sink s w).members.m_deviceNotify = none →
            ((HandleDeviceLost P cfg).run s w).result = .ok () ∧
            ((HandleDeviceLost P cfg).run s w).events =
              Event.OnDeviceLost sink s ::
                ((InitializeUsingHolographicSpace P cfg).run (P.OnDeviceLost sink s w).members
                  (P.OnDeviceLost sink s w).world).events) ∧
          (∀ later, (P.OnDeviceLost sink s w).members.m_deviceNotify = some later →
            ((HandleDeviceLost P cfg).run s w).events =
              Event.OnDeviceLost sink s ::
                ((InitializeUsingHolographicSpace P cfg).run (P.OnDeviceLost sink s w).members
                  (P.OnDeviceLost sink s w).world).events ++
                [Event.OnDeviceRestored later
                  ((InitializeUsingHolographicSpace P cfg).run (P.OnDeviceLost sink s w).members
                    (P.OnDeviceLost sink s w).world).members] ∧
            (((HandleDeviceLost P cfg).run s w).result = .ok () ∨
              ∃ hr, ((HandleDeviceLost P cfg).run s w).result =
                .error ⟨.OnDeviceRestored, hr⟩)))) := by
  rw [HandleDeviceLost_run_some P cfg s w sink h]
  generalize P.OnDeviceLost sink s w = L
  obtain ⟨Lt, Lm, Lw⟩ := L
  have hf := InitializeUsingHolographicSpace_frame P cfg Lm Lw
  have hshape := InitializeUsingHolographicSpace_shape P cfg Lm Lw
  dsimp only
  generalize (InitializeUsingHolographicSpace P cfg).run Lm Lw = r at hf hshape ⊢
  obtain ⟨rr, rm, rw', re⟩ := r
  dsimp only at hf hshape ⊢
  refine ⟨?_, ?_⟩
  · rintro hr rfl
    exact ⟨rfl, rfl⟩
  · rintro rfl
    refine ⟨fun x hx => (hf.2.2 x hx).1, ?_, ?_⟩
    · rintro t rfl
      exact ⟨rfl, rfl⟩
    · rintro rfl
      obtain ⟨space, e0, requested, probe, flags, failed, adapterArg, driverType, hr, c, hr1, hr2,
        hr3, i, hr4, a, hr5, hr6, v, level, hs, hreq, hp, hfailed, hok, g1, g2, g3, g4, g5, he,
        hm⟩ := hshape.initialized_ok
      refine ⟨space, e0 ++ probe ++ failed ++
        [Event.D3D11CreateDevice adapterArg driverType flags featureLevels hr c,
          Event.QueryInterface c.device .D3DDeviceMember hr1,
          Event.QueryInterface c.context .D3DContextMember hr2,
          Event.QueryInterface c.device .IDXGIDevice3 hr3,
          Event.CreateDirect3DDevice c.device i,
          Event.GetAdapter c.device hr4 a,
          Event.QueryInterface a .DXGIAdapterMember hr5,
          Event.CheckFeatureSupport c.device hr6 v], c, i, ?_,
        ⟨adapterArg, driverType, flags, hr, hok, by simp⟩, by simp, by rw [hm], by rw [hm],
        by rw [hm], ?_, ?_⟩
      · rw [he]
        simp
      · intro hn
        rw [hf.1.trans hn]
        exact ⟨rfl, rfl⟩
      · intro later hn
        rw [hf.1.trans hn]
        dsimp only
        refine ⟨rfl, ?_⟩
        cases (P.OnDeviceRestored later rm rw').thrown with
        | none => exact Or.inl rfl
        | some hr => exact Or.inr ⟨hr, rfl⟩

/-- C6, the claim as written fails.  On the scripted platform, with the sink 9 registered and a
sink that deregisters itself when it is called back through `OnDeviceLost`, `HandleDeviceLost`
recreates the device and publishes it, returns, and `OnDeviceRestored` is never called.  With a
sink that throws from `OnDeviceLost`, no recreation is attempted at all. -/
theorem HandleDeviceLost_restored_not_notified :
    ((HandleDeviceLost (scripted (fun _ => sinkDeregisters)) release).run listening 0).result =
      .ok () ∧
    ((HandleDeviceLost (scripted (fun _ => sinkDeregisters)) release).run listening 0).events =
      [Event.OnDeviceLost 9 listening,
        Event.D3D11CreateDevice none .HARDWARE D3D11_CREATE_DEVICE_BGRA_SUPPORT featureLevels 0
          ⟨2001, some 0xb100, 3001⟩,
        Event.QueryInterface 2001 .D3DDeviceMember 0,
        Event.QueryInterface 3001 .D3DContextMember 0,
        Event.QueryInterface 2001 .IDXGIDevice3 0,
        Event.CreateDirect3DDevice 2001 7001,
        Event.GetAdapter 2001 0 6001,
        Event.QueryInterface 6001 .DXGIAdapterMember 0,
        Event.CheckFeatureSupport 2001 0 true,
        Event.SetDirect3D11Device 1 (some 7001)] ∧
    ((HandleDeviceLost (scripted (fun _ => sinkDeregisters)) release).run
      listening 0).members.m_d3dDevice = some 2001 ∧
    ((HandleDeviceLost (scripted (fun _ => sinkThrows)) release).run listening 0).result =
      .error ⟨.OnDeviceLost, E_FAIL⟩ ∧
    ((HandleDeviceLost (scripted (fun _ => sinkThrows)) release).run listening 0).events =
      [Event.OnDeviceLost 9 listening] := by
  decide

/-- C7: `Present` calls `PresentUsingCurrentPrediction` exactly once, first.  If the result is
`DeviceRemoved`, the rest of the run is exactly one run of `HandleDeviceLost`, started from the
same members in the world the present call left, and `Present` returns or throws as that run
does.  For any other result `Present` returns normally having made no other call (so no sink
callback and no recreation) and leaves every member unchanged. -/
theorem Present_recovers_exactly_when_removed (P : Platform W) (cfg : BuildConfig)
    (frame : HolographicFrame) (s : DeviceResources) (w : W) :
    ((Present P cfg frame).run s w).events.filter Event.isPresent =
      [Event.PresentUsingCurrentPrediction frame (P.PresentUsingCurrentPrediction frame w).1] ∧
    ((P.PresentUsingCurrentPrediction frame w).1 = .DeviceRemoved →
      ((Present P cfg frame).run s w).events =
        Event.PresentUsingCurrentPrediction frame (P.PresentUsingCurrentPrediction frame w).1 ::
          ((HandleDeviceLost P cfg).run s (P.PresentUsingCurrentPrediction frame w).2).events ∧
      ((Present P cfg frame).run s w).result =
        ((HandleDeviceLost P cfg).run s (P.PresentUsingCurrentPrediction frame w).2).result ∧
      ((Present P cfg frame).run s w).members =
        ((HandleDeviceLost P cfg).run s (P.PresentUsingCurrentPrediction frame w).2).members ∧
      ((Present P cfg frame).run s w).world =
        ((HandleDeviceLost P cfg).run s (P.PresentUsingCurrentPrediction frame w).2).world) ∧
    ((P.PresentUsingCurrentPrediction frame w).1 ≠ .DeviceRemoved →
      ((Present P cfg frame).run s w).events =
        [Event.PresentUsingCurrentPrediction frame (P.PresentUsingCurrentPrediction frame w).1] ∧
      ((Present P cfg frame).run s w).result = .ok () ∧
      ((Present P cfg frame).run s w).members = s ∧
      ((Present P cfg frame).run s w).world = (P.PresentUsingCurrentPrediction frame w).2) := by
  rw [Present_run]
  by_cases hp : (P.PresentUsingCurrentPrediction frame w).1 = .DeviceRemoved
  · rw [if_pos hp]
    have hf := HandleDeviceLost_quiet P cfg s (P.PresentUsingCurrentPrediction frame w).2
    refine ⟨?_, fun _ => ⟨rfl, rfl, rfl, rfl⟩, fun hne => absurd hp hne⟩
    have : (((HandleDeviceLost P cfg).run s (P.PresentUsingCurrentPrediction frame w).2).events).filter
        Event.isPresent = [] := by
      rw [List.filter_eq_nil_iff]
      intro x hx
      simp [hf x hx]
    simp [List.filter_cons, Event.isPresent, this]
  · rw [if_neg hp]
    exact ⟨by simp [List.filter_cons, Event.isPresent], fun h => absurd h hp,
      fun _ => ⟨rfl, rfl, rfl, rfl⟩⟩

/-- C10, amended: what `InitializeUsingHolographicSpace` leaves in the device, the context, the
interop handle and the optional-feature flag, by outcome.  When it returns, the three handles come
from this run: the device and the context are those returned by a successful creation call of the
run, the interop handle is the result of the run's `CreateDirect3DDevice` call on that device.
When it throws before a device is stored (no holographic space, factory creation, factory
interface, adapter lookup, both creation attempts failed), the three handles and the flag are as
they were before the call.  When it throws later, the handles are replaced only up to the
statement that threw, and the flag is as it was unless the throw is that of the publication: at
the device interface the device is null and the rest old; at the context interface the device is
new, the context null, the interop handle old; at the DXGI device interface or in
`CreateDirect3DDevice` the device and the context are new, the interop handle old; at the adapter
query, the adapter interface or the publication all three handles are new. -/
theorem InitializeUsingHolographicSpace_replaces_up_to_the_throw (P : Platform W)
    (cfg : BuildConfig) (s : DeviceResources) (w : W) :
    (((InitializeUsingHolographicSpace P cfg).run s w).result = .ok () →
      ∃ adapterArg driverType flags hr c i, FAILED hr = false ∧
        Event.D3D11CreateDevice adapterArg driverType flags featureLevels hr c ∈
          ((InitializeUsingHolographicSpace P cfg).run s w).events ∧
        Event.CreateDirect3DDevice c.device i ∈
          ((InitializeUsingHolographicSpace P cfg).run s w).events ∧
        ((InitializeUsingHolographicSpace P cfg).run s w).members.m_d3dDevice = some c.device ∧
        ((InitializeUsingHolographicSpace P cfg).run s w).members.m_d3dContext =
          some c.context ∧
        ((InitializeUsingHolographicSpace P cfg).run s w).members.m_d3dInteropDevice = some i) ∧
    (∀ t, ((InitializeUsingHolographicSpace P cfg).run s w).result = .error t →
      ((t.site = .NullHolographicSpace ∨ t.site = .CreateDXGIFactory2 ∨ t.site = .FactoryAs ∨
            t.site = .EnumAdapterByLuid ∨ t.site = .D3D11CreateDeviceWarp) ∧
          ((InitializeUsingHolographicSpace P cfg).run s w).members.m_d3dDevice = s.m_d3dDevice ∧
          ((InitializeUsingHolographicSpace P cfg).run s w).members.m_d3dContext =
            s.m_d3dContext ∧
          ((InitializeUsingHolographicSpace P cfg).run s w).members.m_d3dInteropDevice =
            s.m_d3dInteropDevice ∧
          ((InitializeUsingHolographicSpace P cfg).run s w).members.m_supportsVprt =
            s.m_supportsVprt) ∨
      (∃ adapterArg driverType flags hr c, FAILED hr = false ∧
          Event.D3D11CreateDevice adapterArg driverType flags featureLevels hr c ∈
            ((InitializeUsingHolographicSpace P cfg).run s w).events ∧
          ((t.site = .DeviceAs ∧
              ((InitializeUsingHolographicSpace P cfg).run s w).members.m_d3dDevice = none ∧
              ((InitializeUsingHolographicSpace P cfg).run s w).members.m_d3dContext =
                s.m_d3dContext ∧
              ((InitializeUsingHolographicSpace P cfg).run s w).members.m_d3dInteropDevice =
                s.m_d3dInteropDevice ∧
              ((InitializeUsingHolographicSpace P cfg).run s w).members.m_supportsVprt =
                s.m_supportsVprt) ∨
            (t.site = .ContextAs ∧
              ((InitializeUsingHolographicSpace P cfg).run s w).members.m_d3dDevice =
                some c.device ∧
              ((InitializeUsingHolographicSpace P cfg).run s w).members.m_d3dContext = none ∧
              ((InitializeUsingHolographicSpace P cfg).run s w).members.m_d3dInteropDevice =
                s.m_d3dInteropDevice ∧
              ((InitializeUsingHolographicSpace P cfg).run s w).members.m_supportsVprt =
                s.m_supportsVprt) ∨
            ((t.site = .DxgiDeviceAs ∨ t.site = .CreateDirect3DDevice) ∧
              ((InitializeUsingHolographicSpace P cfg).run s w).members.m_d3dDevice =
                some c.device ∧
              ((InitializeUsingHolographicSpace P cfg).run s w).members.m_d3dContext =
                some c.context ∧
              ((InitializeUsingHolographicSpace P cfg).run s w).members.m_d3dInteropDevice =
                s.m_d3dInteropDevice ∧
              ((InitializeUsingHolographicSpace P cfg).run s w).members.m_supportsVprt =
                s.m_supportsVprt) ∨
            ((t.site = .GetAdapter ∨ t.site = .AdapterAs) ∧
              ((InitializeUsingHolographicSpace P cfg).run s w).members.m_d3dDevice =
                some c.device ∧
              ((InitializeUsingHolographicSpace P cfg).run s w).members.m_d3dContext =
                some c.context ∧
              (∃ i, Event.CreateDirect3DDevice c.device i ∈
                  ((InitializeUsingHolographicSpace P cfg).run s w).events ∧
                ((InitializeUsingHolographicSpace P cfg).run s w).members.m_d3dInteropDevice =
                  some i) ∧
              ((InitializeUsingHolographicSpace P cfg).run s w).members.m_supportsVprt =
                s.m_supportsVprt) ∨
            (t.site = .SetDirect3D11Device ∧
              ((InitializeUsingHolographicSpace P cfg).run s w).members.m_d3dDevice =
                some c.device ∧
              ((InitializeUsingHolographicSpace P cfg).run s w).members.m_d3dContext =
                some c.context ∧
              ∃ i, Event.CreateDirect3DDevice c.device i ∈
                  ((InitializeUsingHolographicSpace P cfg).run s w).events ∧
                ((InitializeUsingHolographicSpace P cfg).run s w).members.m_d3dInteropDevice =
                  some i)))) := by
  have hshape := InitializeUsingHolographicSpace_shape P cfg s w
  generalize (InitializeUsingHolographicSpace P cfg).run s w = o at hshape ⊢
  obtain ⟨r, m, w', e⟩ := o
  refine ⟨?_, ?_⟩
  · rintro ⟨⟩
    obtain ⟨space, e0, requested, probe, flags, failed, adapterArg, driverType, hr, c, hr1, hr2,
      hr3, i, hr4, a, hr5, hr6, v, level, hs, hreq, hp, hfailed, hok, g1, g2, g3, g4, g5, he,
      hm⟩ := hshape.initialized_ok
    dsimp only at he hm
    refine ⟨adapterArg, driverType, flags, hr, c, i, hok, ?_, ?_, ?_, ?_, ?_⟩
    · dsimp only
      rw [he]
      simp
    · dsimp only
      rw [he]
      simp
    · dsimp only
      rw [hm]
    · dsimp only
      rw [hm]
    · dsimp only
      rw [hm]
  · rintro t ⟨⟩
    exact hshape.initialized_thrown

/-- C10, the claim as written fails: on the scripted platform, after a first initialization that
succeeds, a second one in which the context interface is refused throws at the context step with
the device replaced by the new one (2009 instead of 2000), the context null, and the interop handle
and the optional-feature flag still those of the first initialization. -/
theorem InitializeUsingHolographicSpace_partial_replacement :
    ((SetHolographicSpace (scripted contextRefusedLater) release (some 1)).run fresh 0).members =
      initialized ∧
    ((SetHolographicSpace (scripted contextRefusedLater) release (some 1)).run fresh 0).world = 9 ∧
    ((InitializeUsingHolographicSpace (scripted contextRefusedLater) release).run
      initialized 9).result = .error ⟨.ContextAs, E_NOINTERFACE⟩ ∧
    ((InitializeUsingHolographicSpace (scripted contextRefusedLater) release).run
      initialized 9).members =
      { initialized with m_d3dDevice := some 2009, m_d3dContext := none, m_dxgiAdapter := none } ∧
    ((InitializeUsingHolographicSpace (scripted contextRefusedLater) release).run
      initialized 9).members.m_d3dDevice ≠ initialized.m_d3dDevice ∧
    ((InitializeUsingHolographicSpace (scripted contextRefusedLater) release).run
      initialized 9).members.m_d3dContext = none ∧
    ((InitializeUsingHolographicSpace (scripted contextRefusedLater) release).run
      initialized 9).members.m_d3dInteropDevice = initialized.m_d3dInteropDevice := by
  decide

/-- C1, the code on an identifier whose high part is zero: the holographic space names the
system adapter 77 by the identifier (4660, 0), which is non-zero; `InitializeUsingHolographicSpace`
makes no lookup, gives no adapter to the hardware creation attempt, and returns. -/
theorem InitializeUsingHolographicSpace_skips_lookup_when_a_part_is_zero :
    lowPartOnly.primaryAdapterId = ⟨4660, 0⟩ ∧
    lowPartOnly.systemAdapters.lookup ⟨4660, 0⟩ = some 77 ∧
    ((InitializeUsingHolographicSpace (scripted (fun _ => lowPartOnly)) release).run
      attached 0).result = .ok () ∧
    ((InitializeUsingHolographicSpace (scripted (fun _ => lowPartOnly)) release).run
      attached 0).events.filter Event.isLookup = [] ∧
    ((InitializeUsingHolographicSpace (scripted (fun _ => lowPartOnly)) release).run
      attached 0).events.filter Event.isCreateDevice =
      [Event.D3D11CreateDevice none .HARDWARE D3D11_CREATE_DEVICE_BGRA_SUPPORT featureLevels 0
        ⟨2000, some 0xb100, 3000⟩] := by
  decide

/-- C2, the code on an identifier that matches no adapter and whose low part is zero: the
holographic space gives the identifier (0, 7), which is non-zero and which no system adapter has;
`InitializeUsingHolographicSpace` makes no lookup, creates a hardware device with no adapter given,
publishes its interop device and returns without an exception. -/
theorem InitializeUsingHolographicSpace_returns_on_unknown_identifier :
    unknownAdapter.primaryAdapterId = ⟨0, 7⟩ ∧
    unknownAdapter.systemAdapters.lookup ⟨0, 7⟩ = none ∧
    ((InitializeUsingHolographicSpace (scripted (fun _ => unknownAdapter)) release).run
      attached 0).result = .ok () ∧
    ((InitializeUsingHolographicSpace (scripted (fun _ => unknownAdapter)) release).run
      attached 0).failure = none ∧
    ((InitializeUsingHolographicSpace (scripted (fun _ => unknownAdapter)) release).run
      attached 0).events.filter Event.isCreateDevice =
      [Event.D3D11CreateDevice none .HARDWARE D3D11_CREATE_DEVICE_BGRA_SUPPORT featureLevels 0
        ⟨2000, some 0xb100, 3000⟩] ∧
    ((InitializeUsingHolographicSpace (scripted (fun _ => unknownAdapter)) release).run
      attached 0).events.filter Event.isPublish = [Event.SetDirect3D11Device 1 (some 7000)] := by
  decide

/-- C9, the code on a recreation: after a first initialization on a device with the optional
feature, `CreateDeviceResources` runs again and creates the device 2009, whose feature query
succeeds and reports no support; the run returns and the stored flag is still true. -/
theorem CreateDeviceResources_keeps_stale_feature_flag :
    ((SetHolographicSpace (scripted featureLostLater) release (some 1)).run fresh 0).members =
      initialized ∧
    ((SetHolographicSpace (scripted featureLostLater) release (some 1)).run fresh 0).world = 9 ∧
    ((CreateDeviceResources (scripted featureLostLater) release).run initialized 9).result =
      .ok () ∧
    ((CreateDeviceResources (scripted featureLostLater) release).run
      initialized 9).members.m_d3dDevice = some 2009 ∧
    Event.CheckFeatureSupport 2009 0 false ∈
      ((CreateDeviceResources (scripted featureLostLater) release).run initialized 9).events ∧
    ((CreateDeviceResources (scripted featureLostLater) release).run
      initialized 9).members.m_supportsVprt = true := by
  decide

/-- The theorem for C4 applies to the first initialization on the healthy scripted platform: the
run returns, so the hypothesis holds there. -/
theorem InitializeUsingHolographicSpace_caches_reported_adapter_witness :
    (((InitializeUsingHolographicSpace healthyPlatform release).run attached 0).result = .ok ()) ∧
    (∃ space before adapterArg driverType flags hr c hr1 hr2 hr3 i hrA a hr5 hr6 v,
      attached.m_holographicSpace = some space ∧
      ((InitializeUsingHolographicSpace healthyPlatform release).run attached 0).events =
        before ++
          [Event.D3D11CreateDevice adapterArg driverType flags featureLevels hr c,
            Event.QueryInterface c.device .D3DDeviceMember hr1,
            Event.QueryInterface c.context .D3DContextMember hr2,
            Event.QueryInterface c.device .IDXGIDevice3 hr3,
            Event.CreateDirect3DDevice c.device i,
            Event.GetAdapter c.device hrA a,
            Event.QueryInterface a .DXGIAdapterMember hr5,
            Event.CheckFeatureSupport c.device hr6 v,
            Event.SetDirect3D11Device space (some i)] ∧
      FAILED hr = false ∧ FAILED hrA = false ∧
      ((InitializeUsingHolographicSpace healthyPlatform release).run attached 0).members.m_d3dDevice = some c.device ∧
      ((InitializeUsingHolographicSpace healthyPlatform release).run attached 0).members.m_dxgiAdapter = some a ∧
      (∀ x ∈ before, x.isCreateDevice = true →
        driverType = .WARP ∧ ∃ requested hr0 c0, FAILED hr0 = true ∧
          x = Event.D3D11CreateDevice requested .HARDWARE flags featureLevels hr0 c0) ∧
      (driverType = .WARP →
        adapterArg = none ∧ ∃ x ∈ before, x.isCreateDevice = true) ∧
      ((healthyPlatform.PrimaryAdapterId space 0).LowPart = 0 ∧ (healthyPlatform.PrimaryAdapterId space 0).HighPart = 0 →
        (∀ x ∈ before, x.isLookup = false) ∧
        ∀ adapter flags' levels hr' c',
          Event.D3D11CreateDevice adapter .HARDWARE flags' levels hr' c' ∈
            ((InitializeUsingHolographicSpace healthyPlatform release).run attached 0).events → adapter = none)) :=
  ⟨by decide, InitializeUsingHolographicSpace_caches_reported_adapter healthyPlatform release attached 0 (by decide)⟩

/-- The theorem for C5 applies to the first initialization on the healthy scripted platform: the
run returns, so the hypothesis holds there. -/
theorem InitializeUsingHolographicSpace_interop_wraps_new_device_witness :
    (((InitializeUsingHolographicSpace healthyPlatform release).run attached 0).result = .ok ()) ∧
    (∃ space before adapterArg driverType flags hr c hr1 hr2 hr3 i hrA a hr5 hr6 v,
      attached.m_holographicSpace = some space ∧
      ((InitializeUsingHolographicSpace healthyPlatform release).run attached 0).events =
        before ++
          [Event.D3D11CreateDevice adapterArg driverType flags featureLevels hr c,
            Event.QueryInterface c.device .D3DDeviceMember hr1,
            Event.QueryInterface c.context .D3DContextMember hr2,
            Event.QueryInterface c.device .IDXGIDevice3 hr3,
            Event.CreateDirect3DDevice c.device i,
            Event.GetAdapter c.device hrA a,
            Event.QueryInterface a .DXGIAdapterMember hr5,
            Event.CheckFeatureSupport c.device hr6 v,
            Event.SetDirect3D11Device space (some i)] ∧
      FAILED hr = false ∧
      (∀ x ∈ before, x.isPublish = false ∧ (∀ d j, x ≠ Event.CreateDirect3DDevice d j) ∧
        (x.isCreateDevice = true → ∃ requested hr0 c0, FAILED hr0 = true ∧
          x = Event.D3D11CreateDevice requested .HARDWARE flags featureLevels hr0 c0)) ∧
      ((InitializeUsingHolographicSpace healthyPlatform release).run attached 0).members.m_d3dDevice = some c.device ∧
      ((InitializeUsingHolographicSpace healthyPlatform release).run attached 0).members.m_d3dContext = some c.context ∧
      ((InitializeUsingHolographicSpace healthyPlatform release).run attached 0).members.m_d3dInteropDevice = some i) :=
  ⟨by decide, InitializeUsingHolographicSpace_interop_wraps_new_device healthyPlatform release attached 0 (by decide)⟩

/-- The theorem for C6 applies to a recovery on the healthy scripted platform with the sink 9
registered: there the callback returns and the recreation succeeds. -/
theorem HandleDeviceLost_notifies_registered_sink_witness :
    (listening.m_deviceNotify = some 9 ∧
      (healthyPlatform.OnDeviceLost 9 listening 0).thrown = none ∧
      ((InitializeUsingHolographicSpace healthyPlatform release).run
        (healthyPlatform.OnDeviceLost 9 listening 0).members
        (healthyPlatform.OnDeviceLost 9 listening 0).world).result = .ok ()) ∧
    ((∀ hr, (healthyPlatform.OnDeviceLost 9 listening 0).thrown = some hr →
      ((HandleDeviceLost healthyPlatform release).run listening 0).result = .error ⟨.OnDeviceLost, hr⟩ ∧
      ((HandleDeviceLost healthyPlatform release).run listening 0).events = [Event.OnDeviceLost 9 listening]) ∧
    ((healthyPlatform.OnDeviceLost 9 listening 0).thrown = none →
      (∀ x ∈ ((InitializeUsingHolographicSpace healthyPlatform release).run (healthyPlatform.OnDeviceLost 9 listening 0).members
          (healthyPlatform.OnDeviceLost 9 listening 0).world).events, x.sink? = none) ∧
      (∀ t,
        ((InitializeUsingHolographicSpace healthyPlatform release).run (healthyPlatform.OnDeviceLost 9 listening 0).members
          (healthyPlatform.OnDeviceLost 9 listening 0).world).result = .error t →
        ((HandleDeviceLost healthyPlatform release).run listening 0).result = .error t ∧
        ((HandleDeviceLost healthyPlatform release).run listening 0).events =
          Event.OnDeviceLost 9 listening ::
            ((InitializeUsingHolographicSpace healthyPlatform release).run (healthyPlatform.OnDeviceLost 9 listening 0).members
              (healthyPlatform.OnDeviceLost 9 listening 0).world).events) ∧
      (((InitializeUsingHolographicSpace healthyPlatform release).run (healthyPlatform.OnDeviceLost 9 listening 0).members
          (healthyPlatform.OnDeviceLost 9 listening 0).world).result = .ok () →
        ∃ space before c i,
          ((InitializeUsingHolographicSpace healthyPlatform release).run (healthyPlatform.OnDeviceLost 9 listening 0).members
            (healthyPlatform.OnDeviceLost 9 listening 0).world).events =
            before ++ [Event.SetDirect3D11Device space (some i)] ∧
          (∃ adapterArg driverType flags hr, FAILED hr = false ∧
            Event.D3D11CreateDevice adapterArg driverType flags featureLevels hr c ∈ before) ∧
          Event.CreateDirect3DDevice c.device i ∈ before ∧
          ((InitializeUsingHolographicSpace healthyPlatform release).run (healthyPlatform.OnDeviceLost 9 listening 0).members
            (healthyPlatform.OnDeviceLost 9 listening 0).world).members.m_d3dDevice = some c.device ∧
          ((InitializeUsingHolographicSpace healthyPlatform release).run (healthyPlatform.OnDeviceLost 9 listening 0).members
            (healthyPlatform.OnDeviceLost 9 listening 0).world).members.m_d3dContext = some c.context ∧
          ((InitializeUsingHolographicSpace healthyPlatform release).run (healthyPlatform.OnDeviceLost 9 listening 0).members
            (healthyPlatform.OnDeviceLost 9 listening 0).world).members.m_d3dInteropDevice = some i ∧
          ((healthyPlatform.OnDeviceLost 9 listening 0).members.m_deviceNotify = none →
            ((HandleDeviceLost healthyPlatform release).run listening 0).result = .ok () ∧
            ((HandleDeviceLost healthyPlatform release).run listening 0).events =
              Event.OnDeviceLost 9 listening ::
                ((InitializeUsingHolographicSpace healthyPlatform release).run (healthyPlatform.OnDeviceLost 9 listening 0).members
                  (healthyPlatform.OnDeviceLost 9 listening 0).world).events) ∧
          (∀ later, (healthyPlatform.OnDeviceLost 9 listening 0).members.m_deviceNotify = some later →
            ((HandleDeviceLost healthyPlatform release).run listening 0).events =
              Event.OnDeviceLost 9 listening ::
                ((InitializeUsingHolographicSpace healthyPlatform release).run (healthyPlatform.OnDeviceLost 9 listening 0).members
                  (healthyPlatform.OnDeviceLost 9 listening 0).world).events ++
                [Event.OnDeviceRestored later
                  ((InitializeUsingHolographicSpace healthyPlatform release).run (healthyPlatform.OnDeviceLost 9 listening 0).members
                    (healthyPlatform.OnDeviceLost 9 listening 0).world).members] ∧
            (((HandleDeviceLost healthyPlatform release).run listening 0).result = .ok () ∨
              ∃ hr, ((HandleDeviceLost healthyPlatform release).run listening 0).result =
                .error ⟨.OnDeviceRestored, hr⟩))))) :=
  ⟨by decide, HandleDeviceLost_notifies_registered_sink healthyPlatform release listening 0 9
    (by decide)⟩

end hlDX
